import Mathlib

/-!
# KorfbalCoach — shallow embedding of the match-state model

This file embeds the match-state data model and transition functions of
`src/src/App.tsx` (the current version of the app, before the document
separator) and proves or refutes the frozen claims about them.

Modelling conventions, applied uniformly:

* JS numbers that are only ever integers (clock seconds, half length,
  possession counters, indices) are modelled as `Nat`; the two scores are
  modelled as `Int` because the manual −/+ buttons are the one place where
  a decrement is clamped (`Math.max(0, s - 1)`).
* `uid()` (random string ids such as `"ev_x7f3a"`) is modelled as a
  monotone counter: every transition that calls `uid()` receives the next
  fresh `Nat` and advances the counter.  Ids of different kinds never
  collide in the source because of their distinct prefixes, and never
  collide here because the counter is shared.
* The sentinel string `TEGENSTANDER_ID` is a distinguished constructor of
  the player-reference type `PId`.
* React's `setState` updater queue is single-threaded; sequential
  `setState` calls are modelled as function composition.
-/

set_option maxHeartbeats 1000000
set_option maxRecDepth 100000

namespace KorfbalCoach

/-- `type VakSide = "aanvallend" | "verdedigend"`. -/
inductive VakSide where
  | aanvallend
  | verdedigend
deriving DecidableEq, Repr

/-- `type AttackTeam = "thuis" | "uit"` (also used for `LogEvent.team`). -/
inductive Team where
  | thuis
  | uit
deriving DecidableEq, Repr

/-- `const GESLACHTEN = ["Dame", "Heer"]`. -/
inductive Geslacht where
  | dame
  | heer
deriving DecidableEq, Repr

/-- A player reference: either a `uid`-generated id or the
`TEGENSTANDER_ID` sentinel (`"__tegenstander__"`). -/
inductive PId where
  | gen (n : Nat)
  | tegenstander
deriving DecidableEq, Repr

/-- `type Player`. -/
structure Player where
  id : PId
  naam : String
  geslacht : Geslacht
  foto : Option String := none
deriving DecidableEq, Repr

/-- `LogEvent.soort`. -/
inductive Soort where
  | gemis
  | kans
  | wissel
  | balbezit
  | schot
  | rebound
deriving DecidableEq, Repr

/-- `LogEvent.actie` / `FieldEvent.actie` values
(`"Schot" | "Doorloop" | "Vrijebal" | "Strafworp"`; the lower-case
`FieldEvent` spelling is a rendering detail). -/
inductive LogActie where
  | schot
  | doorloop
  | vrijebal
  | strafworp
deriving DecidableEq, Repr

/-- `LogEvent.type` values (`"Schot" | "Rebound"`). -/
inductive ShotType where
  | schot
  | rebound
deriving DecidableEq, Repr

/-- `LogEvent.resultaat` values (`"Raak" | "Mis" | "Korf" | "Verdedigd"`). -/
inductive LogResultaat where
  | raak
  | mis
  | korf
  | verdedigd
deriving DecidableEq, Repr

/-- `type LogReden` — the 18 reason strings. -/
inductive LogReden where
  | balOnderschept
  | balUit
  | overtreding
  | doorgelaten
  | gescoord
  | wisselIn
  | wisselUit
  | passOnderschept
  | vrijebal
  | vrijeBalTegen
  | strafworp
  | strafworpTegen
  | schotAfgevangen
  | gemistSchot
  | rebound
  | korf
  | doelpunt
  | verdedigd
deriving DecidableEq, Repr

/-- `type AttackMeta`.  Attack ids are `uid("att")` strings, modelled as
`Nat` (see the header). -/
structure AttackMeta where
  id : Nat
  index : Nat
  team : Team
  vak : VakSide
  startSeconden : Nat
  endSeconden : Option Nat := none
deriving DecidableEq, Repr

/-- `type LogEvent`.  Every optional field of the source record is an
`Option`; fields a given constructor site leaves undefined are `none`. -/
structure LogEvent where
  id : Nat
  tijdSeconden : Nat
  vak : Option VakSide := none
  soort : Soort
  actie : Option LogActie := none
  reden : LogReden
  spelerId : Option PId := none
  resterendSeconden : Option Nat := none
  wedstrijdMinuut : Option Nat := none
  pos : Option Nat := none
  team : Option Team := none
  possThuis : Option Nat := none
  possUit : Option Nat := none
  type : Option ShotType := none
  resultaat : Option LogResultaat := none
  attackId : Option Nat := none
  attackIndex : Option Nat := none
deriving DecidableEq, Repr

/-- `type FieldEvent` (heat-map markers).  The percentage coordinates are
JS floats; they are modelled as `Int` since no verified claim involves
their arithmetic. -/
structure FieldEvent where
  id : Nat
  vak : VakSide
  x : Int
  y : Int
  tijdSeconden : Nat
  attackId : Option Nat := none
  actie : Option LogActie := none
  resultaat : Option LogResultaat := none
deriving DecidableEq, Repr

/-- `type AppState`. -/
structure AppState where
  spelers : List Player
  aanval : List (Option PId)
  verdediging : List (Option PId)
  scoreThuis : Int
  scoreUit : Int
  tijdSeconden : Nat
  klokLoopt : Bool
  halfMinuten : Nat
  log : List LogEvent
  possessionOwner : Option Team
  possessionThuisSeconden : Nat
  possessionUitSeconden : Nat
  autoVakWisselNa2 : Bool
  goalsSinceLastSwitch : Nat
  aanvalLinks : Bool
  currentHalf : Nat
  activeVak : VakSide
  attacks : List AttackMeta
  currentAttackId : Option Nat
  fieldEvents : List FieldEvent
  opponentName : String
  homeAway : Team
  matchEnded : Bool
deriving DecidableEq, Repr

/-- `DEFAULT_STATE`. -/
def DEFAULT_STATE : AppState where
  spelers := []
  aanval := [none, none, none, none]
  verdediging := [none, none, none, none]
  scoreThuis := 0
  scoreUit := 0
  tijdSeconden := 0
  klokLoopt := false
  halfMinuten := 25
  log := []
  possessionOwner := none
  possessionThuisSeconden := 0
  possessionUitSeconden := 0
  autoVakWisselNa2 := false
  goalsSinceLastSwitch := 0
  aanvalLinks := true
  currentHalf := 1
  activeVak := VakSide.aanvallend
  attacks := []
  currentAttackId := none
  fieldEvents := []
  opponentName := ""
  homeAway := Team.thuis
  matchEnded := false

/-- The attack-closing step inside `startAttackForVak`, the tick effect and
`eindeWedstrijd`: `findIndex` the first attack whose id is `cid`, and if its
`endSeconden` is still `null`, set it to `now`. -/
def closeAttackById : List AttackMeta → Nat → Nat → List AttackMeta
  | [], _, _ => []
  | a :: rest, cid, now =>
    if a.id = cid then
      (if a.endSeconden = none then { a with endSeconden := some now } else a) :: rest
    else
      a :: closeAttackById rest cid now

/-- `startAttackForVak(prev, vak)` (App.tsx lines 189–221).  `n` is the
fresh id consumed by the `uid("att")` call; the returned counter is `n+1`. -/
def startAttackForVak (prev : AppState) (n : Nat) (vak : VakSide) : AppState × Nat :=
  let now := prev.tijdSeconden
  let team : Team := if vak = VakSide.aanvallend then Team.thuis else Team.uit
  let attacks :=
    match prev.currentAttackId with
    | some cid => closeAttackById prev.attacks cid now
    | none => prev.attacks
  let newAttack : AttackMeta :=
    { id := n, index := attacks.length + 1, team := team, vak := vak,
      startSeconden := now, endSeconden := none }
  ({ prev with
      activeVak := vak
      attacks := attacks ++ [newAttack]
      currentAttackId := some n },
   n + 1)

/-- `getCurrentAttackInfo(state)`: the `(attackId, attackIndex)` pair
stamped on new log events. -/
def getCurrentAttackInfo (state : AppState) : Option Nat × Option Nat :=
  match state.currentAttackId with
  | none => (none, none)
  | some cid =>
    match state.attacks.find? (fun x => x.id = cid) with
    | none => (none, none)
    | some a => (some a.id, some a.index)

/-- `detectVakForSpeler(state, spelerId)`. -/
def detectVakForSpeler (state : AppState) (spelerId : Option PId) : Option VakSide :=
  match spelerId with
  | none => none
  | some pid =>
    if state.aanval.contains (some pid) then some VakSide.aanvallend
    else if state.verdediging.contains (some pid) then some VakSide.verdedigend
    else none

/-- `Math.max(1, Math.ceil(t / 60))` — the match minute stamped on events. -/
def wedstrijdMinuutOf (t : Nat) : Nat := max 1 ((t + 59) / 60)

/-- `Math.max(halfTotal - t, 0)` — the remaining-seconds snapshot (`Nat`
subtraction truncates at 0 exactly like the `Math.max`). -/
def resterendOf (halfMinuten t : Nat) : Nat := halfMinuten * 60 - t

/-- The tick interval body (App.tsx lines 407–445).  The interval only
exists while `klokLoopt` is true (the effect returns early otherwise), so
the tick is the identity on a stopped clock. -/
def tick (prev : AppState) : AppState :=
  if prev.klokLoopt = false then prev
  else
    let halfTotal := prev.halfMinuten * 60
    let currentHalfEnd := prev.currentHalf * halfTotal
    let nextTime := min (prev.tijdSeconden + 1) currentHalfEnd
    let updated := { prev with
      tijdSeconden := nextTime
      possessionThuisSeconden :=
        if prev.possessionOwner = some Team.thuis then
          prev.possessionThuisSeconden + 1
        else prev.possessionThuisSeconden
      possessionUitSeconden :=
        if prev.possessionOwner = some Team.uit then
          prev.possessionUitSeconden + 1
        else prev.possessionUitSeconden }
    if currentHalfEnd ≤ nextTime then
      let stopped := { updated with klokLoopt := false }
      match prev.currentAttackId with
      | some cid =>
        { stopped with
            attacks := closeAttackById prev.attacks cid nextTime
            currentAttackId := none }
      | none => stopped
    else updated

/-- `toggleKlok(aan)`. -/
def toggleKlok (s : AppState) (aan : Bool) : AppState :=
  { s with klokLoopt := aan }

/-- `resetKlok()` (App.tsx lines 560–570): zeroes the clock and possession
accounting, returns to half 1 — and deliberately leaves `log`, `attacks`
and `currentAttackId` untouched. -/
def resetKlok (s : AppState) : AppState :=
  { s with
      tijdSeconden := 0
      klokLoopt := false
      possessionOwner := none
      possessionThuisSeconden := 0
      possessionUitSeconden := 0
      currentHalf := 1
      aanvalLinks := DEFAULT_STATE.aanvalLinks }

/-- `wisselVakken()`. -/
def wisselVakken (s : AppState) : AppState :=
  { s with aanval := s.verdediging, verdediging := s.aanval, goalsSinceLastSwitch := 0 }

/-- `addSpeler(naam, geslacht, foto?)`; consumes one `uid("sp")`. -/
def addSpeler (s : AppState) (n : Nat) (naam : String) (geslacht : Geslacht)
    (foto : Option String) : AppState × Nat :=
  ({ s with spelers := s.spelers ++ [{ id := PId.gen n, naam := naam, geslacht := geslacht, foto := foto }] },
   n + 1)

/-- `delSpeler(id)`: removes the player and nulls any lineup slot holding it. -/
def delSpeler (s : AppState) (pid : PId) : AppState :=
  { s with
      spelers := s.spelers.filter (fun p => p.id ≠ pid)
      aanval := s.aanval.map (fun x => if x = some pid then none else x)
      verdediging := s.verdediging.map (fun x => if x = some pid then none else x) }

/-- `setVakPos(vak, pos, spelerId, logWissel)` (App.tsx lines 492–553). -/
def setVakPos (s : AppState) (n : Nat) (vak : VakSide) (pos : Nat)
    (spelerId : Option PId) (logWissel : Bool) : AppState × Nat :=
  let arr := if vak = VakSide.aanvallend then s.aanval else s.verdediging
  let prevId := (arr.getD pos none)
  let arr2 := arr.set pos spelerId
  let resterend := resterendOf s.halfMinuten s.tijdSeconden
  let minuut := wedstrijdMinuutOf s.tijdSeconden
  let team : Team := if vak = VakSide.aanvallend then Team.thuis else Team.uit
  let mkEv (i : Nat) (reden : LogReden) (sid : Option PId) : LogEvent :=
    { id := i, tijdSeconden := s.tijdSeconden, vak := some vak, soort := Soort.wissel,
      reden := reden, spelerId := sid, resterendSeconden := some resterend,
      wedstrijdMinuut := some minuut, pos := some (pos + 1), team := some team }
  let step1 : List LogEvent × Nat :=
    if logWissel ∧ prevId ≠ none ∧ prevId ≠ spelerId then
      ([mkEv n LogReden.wisselUit prevId], n + 1)
    else ([], n)
  let step2 : List LogEvent × Nat :=
    if logWissel ∧ spelerId ≠ none ∧ prevId ≠ spelerId then
      (step1.1 ++ [mkEv step1.2 LogReden.wisselIn spelerId], step1.2 + 1)
    else step1
  let next :=
    if vak = VakSide.aanvallend then { s with aanval := arr2 }
    else { s with verdediging := arr2 }
  (if step2.1 = [] then next else { next with log := step2.1 ++ s.log }, step2.2)

/-- The restricted `soort` parameter of `logEvent`
(`"Gemis" | "Kans" | "Wissel"`). -/
inductive BasisSoort where
  | gemis
  | kans
  | wissel
deriving DecidableEq, Repr

def BasisSoort.toSoort : BasisSoort → Soort
  | .gemis => Soort.gemis
  | .kans => Soort.kans
  | .wissel => Soort.wissel

/-- The home-goal test of `logEvent`:
`soort === "Kans" && vak === "aanvallend" && (reden === "Gescoord" || reden === "Doelpunt")`. -/
def isThuisGoalB (soort : BasisSoort) (vak : VakSide) (reden : LogReden) : Bool :=
  decide (soort = BasisSoort.kans) && decide (vak = VakSide.aanvallend) &&
    (decide (reden = LogReden.gescoord) || decide (reden = LogReden.doelpunt))

/-- The away-goal test of `logEvent`:
`soort === "Gemis" && vak === "verdedigend" && (reden === "Doorgelaten" || reden === "Doelpunt")`. -/
def isUitGoalB (soort : BasisSoort) (vak : VakSide) (reden : LogReden) : Bool :=
  decide (soort = BasisSoort.gemis) && decide (vak = VakSide.verdedigend) &&
    (decide (reden = LogReden.doorgelaten) || decide (reden = LogReden.doelpunt))

/-- `logEvent(vak, soort, reden, spelerId?, actie?, resultaat?)`
(App.tsx lines 574–654): appends the event, applies the goal side effects
(score, auto zone swap after 2 goals, flip of the active zone together
with a new attack).  Consumes one id for the event and, on a goal, one
more inside `startAttackForVak`. -/
def logEvent (s : AppState) (n : Nat) (vak : VakSide) (soort : BasisSoort)
    (reden : LogReden) (spelerId : Option PId) (actie : Option LogActie)
    (resultaat : Option LogResultaat) : AppState × Nat :=
  let resterend := resterendOf s.halfMinuten s.tijdSeconden
  let minuut := wedstrijdMinuutOf s.tijdSeconden
  let info := getCurrentAttackInfo s
  let e : LogEvent :=
    { id := n, tijdSeconden := s.tijdSeconden, vak := some vak, soort := soort.toSoort,
      reden := reden, spelerId := spelerId,
      team := some (if vak = VakSide.aanvallend then Team.thuis else Team.uit),
      actie := actie, resultaat := resultaat,
      resterendSeconden := some resterend, wedstrijdMinuut := some minuut,
      attackId := info.1, attackIndex := info.2 }
  let next0 : AppState := { s with log := e :: s.log }
  let isThuisGoal : Bool := isThuisGoalB soort vak reden
  let isUitGoal : Bool := isUitGoalB soort vak reden
  let next1 :=
    if isThuisGoal then { next0 with scoreThuis := s.scoreThuis + 1 } else next0
  let next2 :=
    if isUitGoal then { next1 with scoreUit := s.scoreUit + 1 } else next1
  let goalScored : Bool := isThuisGoal || isUitGoal
  let next3 :=
    if goalScored && s.autoVakWisselNa2 then
      if 2 ≤ s.goalsSinceLastSwitch + 1 then
        { next2 with
            aanval := next2.verdediging
            verdediging := next2.aanval
            goalsSinceLastSwitch := 0 }
      else { next2 with goalsSinceLastSwitch := s.goalsSinceLastSwitch + 1 }
    else next2
  if goalScored then
    let nextVak :=
      if s.activeVak = VakSide.aanvallend then VakSide.verdedigend else VakSide.aanvallend
    startAttackForVak next3 (n + 1) nextVak
  else (next3, n + 1)

/-- `logSteal(spelerId?)` (steal by the home side in the defense zone). -/
def logSteal (s : AppState) (n : Nat) (spelerId : Option PId) : AppState × Nat :=
  let resterend := resterendOf s.halfMinuten s.tijdSeconden
  let minuut := wedstrijdMinuutOf s.tijdSeconden
  let info := getCurrentAttackInfo s
  let e : LogEvent :=
    { id := n, tijdSeconden := s.tijdSeconden, vak := some VakSide.verdedigend,
      soort := Soort.balbezit, reden := LogReden.schotAfgevangen, spelerId := spelerId,
      resterendSeconden := some resterend, wedstrijdMinuut := some minuut,
      team := some Team.thuis, attackId := info.1, attackIndex := info.2 }
  let next : AppState := { s with log := e :: s.log, possessionOwner := some Team.thuis }
  startAttackForVak next (n + 1) VakSide.aanvallend

/-- `logStealAgainstUs(spelerId?)` (steal against the home side in the
attack zone; does not change the possession owner). -/
def logStealAgainstUs (s : AppState) (n : Nat) (spelerId : Option PId) : AppState × Nat :=
  let resterend := resterendOf s.halfMinuten s.tijdSeconden
  let minuut := wedstrijdMinuutOf s.tijdSeconden
  let info := getCurrentAttackInfo s
  let e : LogEvent :=
    { id := n, tijdSeconden := s.tijdSeconden, vak := some VakSide.aanvallend,
      soort := Soort.balbezit, reden := LogReden.schotAfgevangen, spelerId := spelerId,
      resterendSeconden := some resterend, wedstrijdMinuut := some minuut,
      team := some Team.uit, attackId := info.1, attackIndex := info.2 }
  let next : AppState := { s with log := e :: s.log }
  startAttackForVak next (n + 1) VakSide.verdedigend

/-- `logSchotOfRebound(type, resultaat, spelerId?)`. -/
def logSchotOfRebound (s : AppState) (n : Nat) (isSchot : Bool) (raak : Bool)
    (spelerId : Option PId) : AppState × Nat :=
  let resterend := resterendOf s.halfMinuten s.tijdSeconden
  let minuut := wedstrijdMinuutOf s.tijdSeconden
  let vak := (detectVakForSpeler s spelerId).getD VakSide.aanvallend
  let team : Team := if vak = VakSide.aanvallend then Team.thuis else Team.uit
  let reden : LogReden :=
    if isSchot then (if raak then LogReden.gescoord else LogReden.gemistSchot)
    else LogReden.rebound
  let info := getCurrentAttackInfo s
  let e : LogEvent :=
    { id := n, tijdSeconden := s.tijdSeconden, vak := some vak,
      soort := if isSchot then Soort.schot else Soort.rebound,
      reden := reden, spelerId := spelerId, team := some team,
      resterendSeconden := some resterend, wedstrijdMinuut := some minuut,
      type := some (if isSchot then ShotType.schot else ShotType.rebound),
      resultaat := some (if raak then LogResultaat.raak else LogResultaat.mis),
      attackId := info.1, attackIndex := info.2 }
  ({ s with log := e :: s.log }, n + 1)

/-- `logBalbezit(team, reden, spelerId?)`: possession-change event; sets the
possession owner and opens a new attack in the zone of that team. -/
def logBalbezit (s : AppState) (n : Nat) (team : Team) (reden : LogReden)
    (spelerId : Option PId) : AppState × Nat :=
  let resterend := resterendOf s.halfMinuten s.tijdSeconden
  let minuut := wedstrijdMinuutOf s.tijdSeconden
  let effectiveSpelerId :=
    if team = Team.uit ∧ spelerId = none then some PId.tegenstander else spelerId
  let info := getCurrentAttackInfo s
  let e : LogEvent :=
    { id := n, tijdSeconden := s.tijdSeconden, soort := Soort.balbezit, reden := reden,
      spelerId := effectiveSpelerId, resterendSeconden := some resterend,
      wedstrijdMinuut := some minuut, team := some team,
      attackId := info.1, attackIndex := info.2 }
  let vak : VakSide := if team = Team.thuis then VakSide.aanvallend else VakSide.verdedigend
  let next : AppState := { s with log := e :: s.log, possessionOwner := some team }
  startAttackForVak next (n + 1) vak

/-- The `fieldEvents` touch-up in `handleVakActieLog`: walk the markers from
the newest backwards and stamp `actie`/`resultaat` on the first one in the
given zone. -/
def markLastFieldEvent (l : List FieldEvent) (vak : VakSide) (actie : LogActie)
    (res : LogResultaat) : List FieldEvent :=
  let rec go : List FieldEvent → List FieldEvent
    | [] => []
    | fe :: rest =>
      if fe.vak = vak then { fe with actie := some actie, resultaat := some res } :: rest
      else fe :: go rest
  (go l.reverse).reverse

/-- `handleVakActieLog(vak, actie, uitkomst, spelerId?)`: maps the outcome to
a `(soort, reden)` pair, updates the newest field marker of the zone, then
delegates to `logEvent`. -/
def handleVakActieLog (s : AppState) (n : Nat) (vak : VakSide) (actie : LogActie)
    (uitkomst : LogResultaat) (spelerId : Option PId) : AppState × Nat :=
  let soort : BasisSoort :=
    if vak = VakSide.aanvallend then BasisSoort.kans else BasisSoort.gemis
  let reden : LogReden :=
    if vak = VakSide.aanvallend then
      match uitkomst with
      | LogResultaat.raak => LogReden.gescoord
      | LogResultaat.korf => LogReden.korf
      | LogResultaat.verdedigd => LogReden.verdedigd
      | LogResultaat.mis => LogReden.gemistSchot
    else
      match uitkomst with
      | LogResultaat.raak => LogReden.doorgelaten
      | LogResultaat.korf => LogReden.korf
      | LogResultaat.verdedigd => LogReden.verdedigd
      | LogResultaat.mis => LogReden.gemistSchot
  let s1 := { s with fieldEvents := markLastFieldEvent s.fieldEvents vak actie uitkomst }
  logEvent s1 n vak soort reden spelerId (some actie) (some uitkomst)

/-- `handleVakClick(vak)` in `WedstrijdTab`: make sure an attack is running
in the clicked zone. -/
def vakClick (s : AppState) (n : Nat) (vak : VakSide) : AppState × Nat :=
  if s.activeVak ≠ vak ∨ s.currentAttackId = none then startAttackForVak s n vak
  else (s, n)

/-- `addFieldEvent(vak, xPct, yPct)`; consumes one `uid("fe")`. -/
def addFieldEvent (s : AppState) (n : Nat) (vak : VakSide) (x y : Int) : AppState × Nat :=
  let info := getCurrentAttackInfo s
  ({ s with fieldEvents := s.fieldEvents ++
      [{ id := n, vak := vak, x := x, y := y, tijdSeconden := s.tijdSeconden,
         attackId := info.1 }] },
   n + 1)

/-- The "2e helft" button (App.tsx lines 2190–2216); disabled once
`currentHalf == 2`, so it is modelled as a no-op in that case. -/
def secondHalf (s : AppState) : AppState :=
  if s.currentHalf = 1 then
    { s with
        currentHalf := 2
        tijdSeconden := max s.tijdSeconden (s.halfMinuten * 60)
        klokLoopt := false
        aanvalLinks := !s.aanvalLinks }
  else s

/-- `eindeWedstrijd()` (App.tsx lines 1324–1344). -/
def eindeWedstrijd (prev : AppState) : AppState :=
  let attacks :=
    match prev.currentAttackId with
    | some cid => closeAttackById prev.attacks cid prev.tijdSeconden
    | none => prev.attacks
  { prev with
      klokLoopt := false
      matchEnded := true
      attacks := attacks
      currentAttackId := none }

/-- `clearWedstrijd()` (App.tsx lines 1346–1376). -/
def clearWedstrijd (s : AppState) : AppState :=
  { s with
      scoreThuis := 0
      scoreUit := 0
      tijdSeconden := 0
      klokLoopt := false
      currentHalf := 1
      possessionOwner := none
      possessionThuisSeconden := 0
      possessionUitSeconden := 0
      log := []
      attacks := []
      currentAttackId := none
      goalsSinceLastSwitch := 0
      fieldEvents := []
      aanvalLinks := DEFAULT_STATE.aanvalLinks
      activeVak := VakSide.aanvallend }

/-- `resetAlles()` (minus the `confirm` dialog and localStorage removal). -/
def resetAlles (_s : AppState) : AppState :=
  { DEFAULT_STATE with attacks := [], currentAttackId := none }

/-- `importTeam`: replace the roster and empty both lineup arrays. -/
def importTeam (s : AppState) (spelers : List Player) : AppState :=
  { s with spelers := spelers,
           aanval := [none, none, none, none],
           verdediging := [none, none, none, none] }

/-- The four manual score buttons and the two half-length buttons in the
current version of `WedstrijdTab`/`VakindelingTab`. -/
def scoreThuisMinus (s : AppState) : AppState :=
  { s with scoreThuis := max 0 (s.scoreThuis - 1) }

def scoreThuisPlus (s : AppState) : AppState :=
  { s with scoreThuis := s.scoreThuis + 1 }

def scoreUitMinus (s : AppState) : AppState :=
  { s with scoreUit := max 0 (s.scoreUit - 1) }

def scoreUitPlus (s : AppState) : AppState :=
  { s with scoreUit := s.scoreUit + 1 }

/-- The `−` half-length button (App.tsx lines 1847–1861): computes
`Math.max(1, halfMinuten - 1)` and passes it to the raw
`setHalfMinuten` prop (lines 1481–1484), which stores it unconditionally —
there is no `klokLoopt` guard in this version. -/
def halfMinutenMinus (s : AppState) : AppState :=
  { s with halfMinuten := max 1 (s.halfMinuten - 1) }

/-- The `+` half-length button (App.tsx lines 1867–1881):
`Math.min(60, halfMinuten + 1)`, stored unconditionally. -/
def halfMinutenPlus (s : AppState) : AppState :=
  { s with halfMinuten := min 60 (s.halfMinuten + 1) }

def setAutoVakWisselNa2 (s : AppState) (b : Bool) : AppState :=
  { s with autoVakWisselNa2 := b }

def setOpponentName (s : AppState) (x : String) : AppState :=
  { s with opponentName := x }

def setAanvalLinks (s : AppState) (b : Bool) : AppState :=
  { s with aanvalLinks := b }

def setHomeAway (s : AppState) (t : Team) : AppState :=
  { s with homeAway := t }

/-! ## Transition system

A `Sim` is the app state together with the fresh-id counter that models
`uid()`.  `Action` enumerates every state-changing entry point of the
current app version; `applyAction` dispatches to the functions above. -/

/-- App state plus the `uid` fresh-id supply. -/
abbrev Sim := AppState × Nat

/-- Every user-reachable transition of the app. -/
inductive Action where
  | addSpeler (naam : String) (geslacht : Geslacht) (foto : Option String)
  | delSpeler (pid : PId)
  | importTeam (spelers : List Player)
  | setVakPos (vak : VakSide) (pos : Nat) (spelerId : Option PId) (logWissel : Bool)
  | wisselVakken
  | toggleKlok (aan : Bool)
  | resetKlok
  | tick
  | logEvent (vak : VakSide) (soort : BasisSoort) (reden : LogReden)
      (spelerId : Option PId) (actie : Option LogActie) (resultaat : Option LogResultaat)
  | handleVakActieLog (vak : VakSide) (actie : LogActie) (uitkomst : LogResultaat)
      (spelerId : Option PId)
  | logSteal (spelerId : Option PId)
  | logStealAgainstUs (spelerId : Option PId)
  | logSchotOfRebound (isSchot : Bool) (raak : Bool) (spelerId : Option PId)
  | logBalbezit (team : Team) (reden : LogReden) (spelerId : Option PId)
  | vakClick (vak : VakSide)
  | addFieldEvent (vak : VakSide) (x y : Int)
  | secondHalf
  | eindeWedstrijd
  | clearWedstrijd
  | resetAlles
  | scoreThuisMinus
  | scoreThuisPlus
  | scoreUitMinus
  | scoreUitPlus
  | halfMinutenMinus
  | halfMinutenPlus
  | setAutoVakWisselNa2 (b : Bool)
  | setOpponentName (x : String)
  | setAanvalLinks (b : Bool)
  | setHomeAway (t : Team)
deriving DecidableEq, Repr

/-- One transition step. -/
def applyAction (p : Sim) (a : Action) : Sim :=
  match a with
  | .addSpeler naam geslacht foto => addSpeler p.1 p.2 naam geslacht foto
  | .delSpeler pid => (delSpeler p.1 pid, p.2)
  | .importTeam spelers => (importTeam p.1 spelers, p.2)
  | .setVakPos vak pos spelerId logWissel => setVakPos p.1 p.2 vak pos spelerId logWissel
  | .wisselVakken => (wisselVakken p.1, p.2)
  | .toggleKlok aan => (toggleKlok p.1 aan, p.2)
  | .resetKlok => (resetKlok p.1, p.2)
  | .tick => (tick p.1, p.2)
  | .logEvent vak soort reden spelerId actie resultaat =>
      logEvent p.1 p.2 vak soort reden spelerId actie resultaat
  | .handleVakActieLog vak actie uitkomst spelerId =>
      handleVakActieLog p.1 p.2 vak actie uitkomst spelerId
  | .logSteal spelerId => logSteal p.1 p.2 spelerId
  | .logStealAgainstUs spelerId => logStealAgainstUs p.1 p.2 spelerId
  | .logSchotOfRebound isSchot raak spelerId => logSchotOfRebound p.1 p.2 isSchot raak spelerId
  | .logBalbezit team reden spelerId => logBalbezit p.1 p.2 team reden spelerId
  | .vakClick vak => vakClick p.1 p.2 vak
  | .addFieldEvent vak x y => addFieldEvent p.1 p.2 vak x y
  | .secondHalf => (secondHalf p.1, p.2)
  | .eindeWedstrijd => (eindeWedstrijd p.1, p.2)
  | .clearWedstrijd => (clearWedstrijd p.1, p.2)
  | .resetAlles => (resetAlles p.1, p.2)
  | .scoreThuisMinus => (scoreThuisMinus p.1, p.2)
  | .scoreThuisPlus => (scoreThuisPlus p.1, p.2)
  | .scoreUitMinus => (scoreUitMinus p.1, p.2)
  | .scoreUitPlus => (scoreUitPlus p.1, p.2)
  | .halfMinutenMinus => (halfMinutenMinus p.1, p.2)
  | .halfMinutenPlus => (halfMinutenPlus p.1, p.2)
  | .setAutoVakWisselNa2 b => (setAutoVakWisselNa2 p.1 b, p.2)
  | .setOpponentName x => (setOpponentName p.1 x, p.2)
  | .setAanvalLinks b => (setAanvalLinks p.1 b, p.2)
  | .setHomeAway t => (setHomeAway p.1 t, p.2)

/-- The initial simulation state: `DEFAULT_STATE` with a fresh id supply. -/
def initSim : Sim := (DEFAULT_STATE, 0)

/-- Run a list of transitions. -/
def runTrace : Sim → List Action → Sim
  | p, [] => p
  | p, a :: rest => runTrace (applyAction p a) rest

/-- A state is reachable when some transition sequence produces it from the
default state. -/
def Reachable (p : Sim) : Prop := ∃ acts : List Action, runTrace initSim acts = p

/-- A trace is admissible for a per-step guard `G` when every action is
applied in a state satisfying the guard. -/
def traceOK (G : Sim → Action → Bool) : Sim → List Action → Bool
  | _, [] => true
  | p, a :: rest => G p a && traceOK G (applyAction p a) rest

/-! ## The attack-tracker invariant -/

/-- The structural invariant of the attack tracker: attack ids are fresh
for the `uid` counter and pairwise distinct, the open attacks are exactly
the one referenced by `currentAttackId`, and the 1-based sequence indices
are strictly increasing and bounded by the list length. -/
structure Inv (p : Sim) : Prop where
  fresh : ∀ a ∈ p.1.attacks, a.id < p.2
  nodup : (p.1.attacks.map AttackMeta.id).Nodup
  openCur : ∀ a ∈ p.1.attacks, a.endSeconden = none → p.1.currentAttackId = some a.id
  curOpen : ∀ cid, p.1.currentAttackId = some cid →
    ∃ a, a ∈ p.1.attacks ∧ a.id = cid ∧ a.endSeconden = none
  idxMono : (p.1.attacks.map AttackMeta.index).Pairwise (· < ·)
  idxLe : ∀ a ∈ p.1.attacks, a.index ≤ p.1.attacks.length

theorem invOfEq {p q : Sim} (h : Inv p) (ha : q.1.attacks = p.1.attacks)
    (hc : q.1.currentAttackId = p.1.currentAttackId) (hn : p.2 ≤ q.2) : Inv q where
  fresh := fun a hm => lt_of_lt_of_le (h.fresh a (ha ▸ hm)) hn
  nodup := by rw [ha]; exact h.nodup
  openCur := fun a hm ho => by rw [hc]; exact h.openCur a (ha ▸ hm) ho
  curOpen := fun cid hcid => by
    obtain ⟨a, hm, hid, hopen⟩ := h.curOpen cid (hc ▸ hcid)
    exact ⟨a, ha ▸ hm, hid, hopen⟩
  idxMono := by rw [ha]; exact h.idxMono
  idxLe := fun a hm => by rw [ha]; exact ha ▸ h.idxLe a (ha ▸ hm)

theorem invOfEmpty {p : Sim} (ha : p.1.attacks = []) (hc : p.1.currentAttackId = none) :
    Inv p where
  fresh := fun a hm => by rw [ha] at hm; cases hm
  nodup := by rw [ha]; exact List.nodup_nil
  openCur := fun a hm => by rw [ha] at hm; cases hm
  curOpen := fun cid hcid => by rw [hc] at hcid; cases hcid
  idxMono := by rw [ha]; exact List.Pairwise.nil
  idxLe := fun a hm => by rw [ha] at hm; cases hm

/-! Lemmas about `closeAttackById`. -/

theorem closeAttackById_map_id (l : List AttackMeta) (cid now : Nat) :
    (closeAttackById l cid now).map AttackMeta.id = l.map AttackMeta.id := by
  induction l with
  | nil => rfl
  | cons a rest ih =>
    simp only [closeAttackById]
    by_cases hid : a.id = cid
    · simp only [if_pos hid]
      by_cases he : a.endSeconden = none <;> simp [if_pos, if_neg, he]
    · simp [if_neg hid, ih]

theorem closeAttackById_map_index (l : List AttackMeta) (cid now : Nat) :
    (closeAttackById l cid now).map AttackMeta.index = l.map AttackMeta.index := by
  induction l with
  | nil => rfl
  | cons a rest ih =>
    simp only [closeAttackById]
    by_cases hid : a.id = cid
    · simp only [if_pos hid]
      by_cases he : a.endSeconden = none <;> simp [if_pos, if_neg, he]
    · simp [if_neg hid, ih]

theorem closeAttackById_length (l : List AttackMeta) (cid now : Nat) :
    (closeAttackById l cid now).length = l.length := by
  have := congrArg List.length (closeAttackById_map_id l cid now)
  simpa using this

theorem mem_closeAttackById {l : List AttackMeta} {cid now : Nat} {a' : AttackMeta}
    (h : a' ∈ closeAttackById l cid now) :
    ∃ a ∈ l, a'.id = a.id ∧ a'.index = a.index ∧ a'.team = a.team ∧ a'.vak = a.vak ∧
      a'.startSeconden = a.startSeconden ∧
      (a'.endSeconden = a.endSeconden ∨ (a.endSeconden = none ∧ a'.endSeconden = some now)) := by
  induction l with
  | nil => cases h
  | cons a rest ih =>
    simp only [closeAttackById] at h
    by_cases hid : a.id = cid
    · rw [if_pos hid] at h
      rcases List.mem_cons.1 h with h1 | h1
      · by_cases he : a.endSeconden = none
        · rw [if_pos he] at h1
          subst h1
          exact ⟨a, List.mem_cons_self a rest, rfl, rfl, rfl, rfl, rfl, Or.inr ⟨he, rfl⟩⟩
        · rw [if_neg he] at h1
          subst h1
          exact ⟨a', List.mem_cons_self a' rest, rfl, rfl, rfl, rfl, rfl, Or.inl rfl⟩
      · exact ⟨a', List.mem_cons_of_mem a h1, rfl, rfl, rfl, rfl, rfl, Or.inl rfl⟩
    · rw [if_neg hid] at h
      rcases List.mem_cons.1 h with h1 | h1
      · subst h1
        exact ⟨a', List.mem_cons_self a' rest, rfl, rfl, rfl, rfl, rfl, Or.inl rfl⟩
      · obtain ⟨a0, hm, rest_h⟩ := ih h1
        exact ⟨a0, List.mem_cons_of_mem a hm, rest_h⟩

theorem closeAttackById_closes {l : List AttackMeta} {cid now : Nat} {a : AttackMeta}
    (hnd : (l.map AttackMeta.id).Nodup) (ha : a ∈ l) (hid : a.id = cid)
    (hopen : a.endSeconden = none) :
    { a with endSeconden := some now } ∈ closeAttackById l cid now := by
  induction l with
  | nil => cases ha
  | cons b rest ih =>
    rw [List.map_cons, List.nodup_cons] at hnd
    simp only [closeAttackById]
    rcases List.mem_cons.1 ha with h1 | h1
    · subst h1
      rw [if_pos hid, if_pos hopen]
      exact List.mem_cons_self _ _
    · by_cases hbid : b.id = cid
      · exfalso
        apply hnd.1
        rw [hbid, ← hid]
        exact List.mem_map_of_mem AttackMeta.id h1
      · rw [if_neg hbid]
        exact List.mem_cons_of_mem b (ih hnd.2 h1)

theorem closeAttackById_all_closed {l : List AttackMeta} {cid now : Nat}
    (hnd : (l.map AttackMeta.id).Nodup)
    (h : ∀ a ∈ l, a.endSeconden = none → a.id = cid) :
    ∀ a' ∈ closeAttackById l cid now, a'.endSeconden ≠ none := by
  induction l with
  | nil => intro a' hm; cases hm
  | cons b rest ih =>
    rw [List.map_cons, List.nodup_cons] at hnd
    intro a' hm
    simp only [closeAttackById] at hm
    by_cases hbid : b.id = cid
    · rw [if_pos hbid] at hm
      rcases List.mem_cons.1 hm with h1 | h1
      · by_cases he : b.endSeconden = none
        · rw [if_pos he] at h1; subst h1; simp
        · rw [if_neg he] at h1; subst h1; exact he
      · intro hopen
        have hb : a'.id = cid := h a' (List.mem_cons_of_mem b h1) hopen
        apply hnd.1
        rw [hbid, ← hb]
        exact List.mem_map_of_mem AttackMeta.id h1
    · rw [if_neg hbid] at hm
      rcases List.mem_cons.1 hm with h1 | h1
      · subst h1
        intro hopen
        exact hbid (h a' (List.mem_cons_self _ _) hopen)
      · exact ih hnd.2 (fun a ham => h a (List.mem_cons_of_mem b ham)) a' h1

/-- `startAttackForVak` preserves the attack-tracker invariant. -/
theorem startAttack_inv {s : AppState} {n : Nat} (h : Inv (s, n)) (vak : VakSide) :
    Inv (startAttackForVak s n vak) := by
  have hattacks :
      (startAttackForVak s n vak).1.attacks =
        (match s.currentAttackId with
          | some cid => closeAttackById s.attacks cid s.tijdSeconden
          | none => s.attacks) ++
        [{ id := n,
           index := (match s.currentAttackId with
              | some cid => closeAttackById s.attacks cid s.tijdSeconden
              | none => s.attacks).length + 1,
           team := if vak = VakSide.aanvallend then Team.thuis else Team.uit,
           vak := vak, startSeconden := s.tijdSeconden, endSeconden := none }] := rfl
  have hcur : (startAttackForVak s n vak).1.currentAttackId = some n := rfl
  have hn2 : (startAttackForVak s n vak).2 = n + 1 := rfl
  set A := (match s.currentAttackId with
    | some cid => closeAttackById s.attacks cid s.tijdSeconden
    | none => s.attacks) with hA
  have hAids : A.map AttackMeta.id = s.attacks.map AttackMeta.id := by
    rw [hA]
    cases s.currentAttackId with
    | none => rfl
    | some cid => exact closeAttackById_map_id s.attacks cid s.tijdSeconden
  have hAidx : A.map AttackMeta.index = s.attacks.map AttackMeta.index := by
    rw [hA]
    cases s.currentAttackId with
    | none => rfl
    | some cid => exact closeAttackById_map_index s.attacks cid s.tijdSeconden
  have hAlen : A.length = s.attacks.length := by
    have := congrArg List.length hAids
    simpa using this
  have hAfresh : ∀ a ∈ A, a.id < n := by
    intro a hm
    have : a.id ∈ A.map AttackMeta.id := List.mem_map_of_mem _ hm
    rw [hAids] at this
    obtain ⟨b, hb, hid⟩ := List.mem_map.1 this
    rw [← hid]
    exact h.fresh b hb
  have hAclosed : ∀ a ∈ A, a.endSeconden = none → False := by
    intro a hm hopen
    rw [hA] at hm
    cases hcurcase : s.currentAttackId with
    | none =>
      rw [hcurcase] at hm
      have := h.openCur a hm hopen
      rw [hcurcase] at this
      cases this
    | some cid =>
      rw [hcurcase] at hm
      refine closeAttackById_all_closed h.nodup ?_ a hm hopen
      intro b hb hbopen
      have := h.openCur b hb hbopen
      rw [hcurcase] at this
      exact (Option.some.inj this).symm
  have hAidxle : ∀ a ∈ A, a.index ≤ A.length := by
    intro a hm
    rw [hA] at hm
    rw [hAlen]
    cases hcurcase : s.currentAttackId with
    | none =>
      rw [hcurcase] at hm
      exact h.idxLe a hm
    | some cid =>
      rw [hcurcase] at hm
      obtain ⟨b, hb, _, hidx, _⟩ := mem_closeAttackById hm
      rw [hidx]
      exact h.idxLe b hb
  constructor
  · intro a hm
    rw [hattacks] at hm
    rw [hn2]
    rcases List.mem_append.1 hm with h1 | h1
    · exact lt_trans (hAfresh a h1) (Nat.lt_succ_self n)
    · rcases List.mem_singleton.1 h1 with rfl
      exact Nat.lt_succ_self n
  · rw [hattacks, List.map_append]
    apply List.Nodup.append
    · rw [hAids]; exact h.nodup
    · simp
    · intro x hx hy
      have hxn : x = n := by simpa using hy
      rw [hAids] at hx
      obtain ⟨b, hb, hid⟩ := List.mem_map.1 hx
      have hbn : b.id < n := h.fresh b hb
      omega
  · intro a hm hopen
    rw [hattacks] at hm
    rw [hcur]
    rcases List.mem_append.1 hm with h1 | h1
    · exact absurd hopen (fun ho => hAclosed a h1 ho)
    · rcases List.mem_singleton.1 h1 with rfl
      rfl
  · intro cid hcid
    rw [hcur] at hcid
    obtain rfl : n = cid := Option.some.inj hcid
    refine ⟨(⟨n, A.length + 1,
        if vak = VakSide.aanvallend then Team.thuis else Team.uit,
        vak, s.tijdSeconden, none⟩ : AttackMeta), ?_, rfl, rfl⟩
    rw [hattacks]
    exact List.mem_append_right _ (List.mem_singleton_self _)
  · rw [hattacks, List.map_append]
    rw [List.pairwise_append]
    refine ⟨by rw [hAidx]; exact h.idxMono, List.pairwise_singleton _ _, ?_⟩
    intro x hx y hy
    have hyn : y = A.length + 1 := by simpa using hy
    rw [hAidx] at hx
    obtain ⟨b, hb, hid⟩ := List.mem_map.1 hx
    have hble : b.index ≤ s.attacks.length := h.idxLe b hb
    have hAl : A.length = s.attacks.length := hAlen
    omega
  · intro a hm
    rw [hattacks] at hm
    rw [hattacks, List.length_append, List.length_singleton]
    rcases List.mem_append.1 hm with h1 | h1
    · exact le_trans (hAidxle a h1) (Nat.le_succ _)
    · rcases List.mem_singleton.1 h1 with rfl
      simp

/-- Closing the currently-open attack (tick at the cap, `eindeWedstrijd`)
preserves the invariant. -/
theorem Inv.close_current {p : Sim} (h : Inv p) {q : Sim} {cid now : Nat}
    (hcur : p.1.currentAttackId = some cid)
    (ha : q.1.attacks = closeAttackById p.1.attacks cid now)
    (hc : q.1.currentAttackId = none) (hn : p.2 ≤ q.2) : Inv q := by
  have hids : q.1.attacks.map AttackMeta.id = p.1.attacks.map AttackMeta.id := by
    rw [ha]; exact closeAttackById_map_id _ _ _
  have hidx : q.1.attacks.map AttackMeta.index = p.1.attacks.map AttackMeta.index := by
    rw [ha]; exact closeAttackById_map_index _ _ _
  have hlen : q.1.attacks.length = p.1.attacks.length := by
    have := congrArg List.length hids; simpa using this
  constructor
  · intro a hm
    have : a.id ∈ q.1.attacks.map AttackMeta.id := List.mem_map_of_mem _ hm
    rw [hids] at this
    obtain ⟨b, hb, hid⟩ := List.mem_map.1 this
    rw [← hid]
    exact lt_of_lt_of_le (h.fresh b hb) hn
  · rw [hids]; exact h.nodup
  · intro a hm hopen
    exfalso
    rw [ha] at hm
    refine closeAttackById_all_closed h.nodup ?_ a hm hopen
    intro b hb hbopen
    have := h.openCur b hb hbopen
    rw [hcur] at this
    exact (Option.some.inj this).symm
  · intro c hco
    rw [hc] at hco
    cases hco
  · rw [hidx]; exact h.idxMono
  · intro a hm
    rw [ha] at hm
    obtain ⟨b, hb, _, hbidx, _⟩ := mem_closeAttackById hm
    rw [hlen, hbidx]
    exact h.idxLe b hb

/-- One tick preserves the invariant. -/
theorem tick_inv {s : AppState} {n : Nat} (h : Inv (s, n)) : Inv (tick s, n) := by
  have hch : ((tick s).attacks = s.attacks ∧ (tick s).currentAttackId = s.currentAttackId) ∨
      (∃ cid now, s.currentAttackId = some cid ∧
        (tick s).attacks = closeAttackById s.attacks cid now ∧
        (tick s).currentAttackId = none) := by
    simp only [tick]
    by_cases hk : s.klokLoopt = false
    · rw [if_pos hk]
      exact Or.inl ⟨rfl, rfl⟩
    · rw [if_neg hk]
      by_cases hc : s.currentHalf * (s.halfMinuten * 60) ≤
          min (s.tijdSeconden + 1) (s.currentHalf * (s.halfMinuten * 60))
      · rw [if_pos hc]
        cases hcur : s.currentAttackId with
        | none => exact Or.inl ⟨rfl, rfl⟩
        | some cid => exact Or.inr ⟨cid, _, rfl, rfl, rfl⟩
      · rw [if_neg hc]
        exact Or.inl ⟨rfl, rfl⟩
  rcases hch with ⟨ha, hc⟩ | ⟨cid, now, hcur, ha, hc⟩
  · exact invOfEq h ha hc (le_refl n)
  · exact Inv.close_current h hcur ha hc (le_refl n)

/-- `logEvent` preserves the invariant. -/
theorem logEvent_inv {s : AppState} {n : Nat} (h : Inv (s, n)) (vak : VakSide)
    (soort : BasisSoort) (reden : LogReden) (spelerId : Option PId)
    (actie : Option LogActie) (resultaat : Option LogResultaat) :
    Inv (logEvent s n vak soort reden spelerId actie resultaat) := by
  simp only [logEvent]
  split
  · exact startAttack_inv
      (invOfEq h (by split_ifs <;> rfl) (by split_ifs <;> rfl) (Nat.le_succ n)) _
  · exact invOfEq h (by split_ifs <;> rfl) (by split_ifs <;> rfl) (Nat.le_succ n)

/-- Every transition preserves the invariant. -/
theorem inv_step (p : Sim) (a : Action) (h : Inv p) : Inv (applyAction p a) := by
  obtain ⟨s, n⟩ := p
  cases a with
  | addSpeler naam g foto => exact invOfEq h rfl rfl (Nat.le_succ n)
  | delSpeler pid => exact invOfEq h rfl rfl (le_refl n)
  | importTeam spelers => exact invOfEq h rfl rfl (le_refl n)
  | setVakPos vak pos spelerId logWissel =>
    refine invOfEq h ?_ ?_ ?_ <;>
      simp only [applyAction, setVakPos] <;> split_ifs <;> simp <;> omega
  | wisselVakken => exact invOfEq h rfl rfl (le_refl n)
  | toggleKlok aan => exact invOfEq h rfl rfl (le_refl n)
  | resetKlok => exact invOfEq h rfl rfl (le_refl n)
  | tick => exact tick_inv h
  | logEvent vak soort reden spelerId actie resultaat =>
    exact logEvent_inv h vak soort reden spelerId actie resultaat
  | handleVakActieLog vak actie uitkomst spelerId =>
    refine logEvent_inv ?_ _ _ _ _ _ _
    exact invOfEq h rfl rfl (le_refl n)
  | logSteal spelerId =>
    refine startAttack_inv ?_ _
    exact invOfEq h rfl rfl (Nat.le_succ n)
  | logStealAgainstUs spelerId =>
    refine startAttack_inv ?_ _
    exact invOfEq h rfl rfl (Nat.le_succ n)
  | logSchotOfRebound isSchot raak spelerId =>
    exact invOfEq h rfl rfl (Nat.le_succ n)
  | logBalbezit team reden spelerId =>
    refine startAttack_inv ?_ _
    exact invOfEq h rfl rfl (Nat.le_succ n)
  | vakClick vak =>
    simp only [applyAction, vakClick]
    split
    · exact startAttack_inv h vak
    · exact h
  | addFieldEvent vak x y => exact invOfEq h rfl rfl (Nat.le_succ n)
  | secondHalf =>
    refine invOfEq h ?_ ?_ (le_refl n) <;>
      simp only [applyAction, secondHalf] <;> split <;> rfl
  | eindeWedstrijd =>
    cases hcur : s.currentAttackId with
    | none =>
      refine invOfEq h ?_ ?_ (le_refl n)
      · simp only [applyAction, eindeWedstrijd, hcur]
      · simp only [applyAction, eindeWedstrijd, hcur]
    | some cid =>
      refine @Inv.close_current (s, n) h _ cid s.tijdSeconden hcur ?_ rfl (le_refl n)
      simp only [applyAction, eindeWedstrijd, hcur]
  | clearWedstrijd => exact invOfEmpty rfl rfl
  | resetAlles => exact invOfEmpty rfl rfl
  | scoreThuisMinus => exact invOfEq h rfl rfl (le_refl n)
  | scoreThuisPlus => exact invOfEq h rfl rfl (le_refl n)
  | scoreUitMinus => exact invOfEq h rfl rfl (le_refl n)
  | scoreUitPlus => exact invOfEq h rfl rfl (le_refl n)
  | halfMinutenMinus => exact invOfEq h rfl rfl (le_refl n)
  | halfMinutenPlus => exact invOfEq h rfl rfl (le_refl n)
  | setAutoVakWisselNa2 b => exact invOfEq h rfl rfl (le_refl n)
  | setOpponentName x => exact invOfEq h rfl rfl (le_refl n)
  | setAanvalLinks b => exact invOfEq h rfl rfl (le_refl n)
  | setHomeAway t => exact invOfEq h rfl rfl (le_refl n)

theorem inv_runTrace (acts : List Action) : ∀ p : Sim, Inv p → Inv (runTrace p acts) := by
  induction acts with
  | nil => intro p h; exact h
  | cons a rest ih =>
    intro p h
    exact ih _ (inv_step p a h)

theorem inv_init : Inv initSim := invOfEmpty rfl rfl

theorem inv_reachable {p : Sim} (h : Reachable p) : Inv p := by
  obtain ⟨acts, hrun⟩ := h
  rw [← hrun]
  exact inv_runTrace acts initSim inv_init

/-! ## Claim C1: attack exclusivity -/

/-- Number of attacks with a `null` end time. -/
def openCount (s : AppState) : Nat :=
  s.attacks.countP (fun a => a.endSeconden.isNone)

theorem countP_open_le_one (c : Option Nat) :
    ∀ l : List AttackMeta, (l.map AttackMeta.id).Nodup →
      (∀ a ∈ l, a.endSeconden = none → c = some a.id) →
      l.countP (fun a => a.endSeconden.isNone) ≤ 1 := by
  intro l
  induction l with
  | nil => intro _ _; simp
  | cons a rest ih =>
    intro hnd hopen
    rw [List.map_cons, List.nodup_cons] at hnd
    rw [List.countP_cons]
    by_cases he : a.endSeconden = none
    · have hca := hopen a (List.mem_cons_self a rest) he
      have hzero : rest.countP (fun x => x.endSeconden.isNone) = 0 := by
        rw [List.countP_eq_zero]
        intro b hb
        simp only [Option.isNone_iff_eq_none]
        intro hbe
        have hcb := hopen b (List.mem_cons_of_mem a hb) hbe
        rw [hca] at hcb
        refine hnd.1 ?_
        rw [Option.some.inj hcb]
        exact List.mem_map_of_mem AttackMeta.id hb
      simp [hzero, he]
    · have hle := ih hnd.2 (fun b hb hbe => hopen b (List.mem_cons_of_mem a hb) hbe)
      simpa [he] using hle

/-- If an attack is open, `startAttackForVak` puts its closed version (end
time = the clock value at the moment of the open) into the attack list. -/
theorem startAttack_closes_open {s : AppState} {n : Nat} {a : AttackMeta}
    (hnd : (s.attacks.map AttackMeta.id).Nodup) (hm : a ∈ s.attacks)
    (hopen : a.endSeconden = none) (hcur : s.currentAttackId = some a.id)
    (vak : VakSide) :
    { a with endSeconden := some s.tijdSeconden } ∈ (startAttackForVak s n vak).1.attacks := by
  have hmem := @closeAttackById_closes s.attacks a.id s.tijdSeconden a hnd hm rfl hopen
  simp only [startAttackForVak, hcur]
  exact List.mem_append_left _ hmem

/-- **C1** (attack exclusivity): in every state reachable from the default
state, at most one attack has a `null` end time, and opening a new attack
via `startAttackForVak` (for any zone) closes a previously-open attack
with its end time set to the clock value at the moment of the new open. -/
theorem claim_C1_attack_exclusivity (p : Sim) (hreach : Reachable p) :
    openCount p.1 ≤ 1 ∧
    ∀ vak : VakSide, ∀ a ∈ p.1.attacks, a.endSeconden = none →
      { a with endSeconden := some p.1.tijdSeconden } ∈
        (startAttackForVak p.1 p.2 vak).1.attacks := by
  have hinv := inv_reachable hreach
  constructor
  · exact countP_open_le_one p.1.currentAttackId p.1.attacks hinv.nodup hinv.openCur
  · intro vak a hm hopen
    exact startAttack_closes_open hinv.nodup hm hopen (hinv.openCur a hm hopen) vak

/-- Witness for C1 at the reachable state produced by one zone click. -/
theorem claim_C1_attack_exclusivity_witness :
    openCount (runTrace initSim [Action.vakClick VakSide.aanvallend]).1 ≤ 1 ∧
    ({ id := 0, index := 1, team := Team.thuis, vak := VakSide.aanvallend,
       startSeconden := 0, endSeconden := some 0 } : AttackMeta) ∈
      (startAttackForVak (runTrace initSim [Action.vakClick VakSide.aanvallend]).1
        (runTrace initSim [Action.vakClick VakSide.aanvallend]).2
        VakSide.verdedigend).1.attacks := by
  have h := claim_C1_attack_exclusivity
    (runTrace initSim [Action.vakClick VakSide.aanvallend]) ⟨_, rfl⟩
  refine ⟨h.1, ?_⟩
  have h2 := h.2 VakSide.verdedigend
    { id := 0, index := 1, team := Team.thuis, vak := VakSide.aanvallend,
      startSeconden := 0, endSeconden := none } (by decide) rfl
  exact h2

/-! ## Claim C2: clock cap -/

theorem tick_stopped {s : AppState} (h : s.klokLoopt = false) : tick s = s := by
  simp [tick, h]

theorem iterate_tick_stopped {s : AppState} (h : s.klokLoopt = false) (m : Nat) :
    tick^[m] s = s := by
  induction m with
  | zero => rfl
  | succ m ih => rw [Function.iterate_succ_apply, tick_stopped h, ih]

/-- A tick in half 1 that reaches (or starts at) the cap: the clock caps,
stops, and the current attack is closed at the cap. -/
theorem tick_caps {s : AppState} (hk : s.klokLoopt = true) (h2 : s.currentHalf = 1)
    (hge : s.halfMinuten * 60 ≤ s.tijdSeconden + 1)
    (hle : s.tijdSeconden ≤ s.halfMinuten * 60) :
    (tick s).tijdSeconden = s.halfMinuten * 60 ∧ (tick s).klokLoopt = false ∧
    ((tick s).attacks = match s.currentAttackId with
      | some cid => closeAttackById s.attacks cid (s.halfMinuten * 60)
      | none => s.attacks) ∧
    (tick s).currentAttackId = none := by
  have hmin : min (s.tijdSeconden + 1) (s.halfMinuten * 60) = s.halfMinuten * 60 := by
    omega
  cases hcur : s.currentAttackId with
  | none => refine ⟨?_, ?_, ?_, ?_⟩ <;> simp [tick, hk, h2, one_mul, hmin, hcur]
  | some cid => refine ⟨?_, ?_, ?_, ?_⟩ <;> simp [tick, hk, h2, one_mul, hmin, hcur]

/-- A tick in half 1 strictly below the cap: one second elapses and the
matching possession counter advances. -/
theorem tick_step {s : AppState} (hk : s.klokLoopt = true) (h2 : s.currentHalf = 1)
    (hlt : s.tijdSeconden + 1 < s.halfMinuten * 60) :
    tick s = { s with
      tijdSeconden := s.tijdSeconden + 1
      possessionThuisSeconden :=
        if s.possessionOwner = some Team.thuis then s.possessionThuisSeconden + 1
        else s.possessionThuisSeconden
      possessionUitSeconden :=
        if s.possessionOwner = some Team.uit then s.possessionUitSeconden + 1
        else s.possessionUitSeconden } := by
  have hmin : min (s.tijdSeconden + 1) (s.halfMinuten * 60) = s.tijdSeconden + 1 := by
    omega
  have hcond : ¬ (s.halfMinuten * 60 ≤ s.tijdSeconden + 1) := by omega
  simp [tick, hk, h2, one_mul, hmin, hcond]

/-- Running `m` ticks from half 1 with the clock on, where `m` crosses the
cap, ends exactly at the cap with a stopped clock and a closed attack. -/
theorem tick_run {m : Nat} : ∀ s : AppState, s.klokLoopt = true → s.currentHalf = 1 →
    s.tijdSeconden ≤ s.halfMinuten * 60 → s.halfMinuten * 60 < s.tijdSeconden + m →
    (tick^[m] s).tijdSeconden = s.halfMinuten * 60 ∧
    (tick^[m] s).klokLoopt = false ∧
    ((tick^[m] s).attacks = match s.currentAttackId with
      | some cid => closeAttackById s.attacks cid (s.halfMinuten * 60)
      | none => s.attacks) ∧
    (tick^[m] s).currentAttackId = none := by
  induction m with
  | zero =>
    intro s _ _ hle hlt
    omega
  | succ m ih =>
    intro s hk h2 hle hlt
    rw [Function.iterate_succ_apply]
    by_cases hcap : s.halfMinuten * 60 ≤ s.tijdSeconden + 1
    · obtain ⟨ht, hkl, ha, hc⟩ := tick_caps hk h2 hcap hle
      rw [iterate_tick_stopped hkl m]
      exact ⟨ht, hkl, ha, hc⟩
    · push_neg at hcap
      rw [tick_step hk h2 hcap]
      exact ih _ hk h2 (by simp; omega) (by simp; omega)

/-- **C2** (clock cap): starting at the beginning of half 1 with the clock
running, `halfLength*60 + k` ticks (k > 0) leave `tijdSeconden` at the cap
`halfLength*60`, stop the clock, and close any open attack at the cap. -/
theorem claim_C2_clock_cap (s : AppState) (k : Nat) (hk0 : 0 < k)
    (hk : s.klokLoopt = true) (h2 : s.currentHalf = 1) (ht : s.tijdSeconden = 0)
    (hnd : (s.attacks.map AttackMeta.id).Nodup)
    (hopen : ∀ a ∈ s.attacks, a.endSeconden = none → s.currentAttackId = some a.id) :
    (tick^[s.halfMinuten * 60 + k] s).tijdSeconden = s.halfMinuten * 60 ∧
    (tick^[s.halfMinuten * 60 + k] s).klokLoopt = false ∧
    ∀ a ∈ s.attacks, a.endSeconden = none →
      { a with endSeconden := some (s.halfMinuten * 60) } ∈
        (tick^[s.halfMinuten * 60 + k] s).attacks := by
  obtain ⟨h1, h2', h3, _⟩ :=
    @tick_run (s.halfMinuten * 60 + k) s hk h2 (by omega) (by omega)
  refine ⟨h1, h2', ?_⟩
  intro a hm hao
  have hcur := hopen a hm hao
  rw [hcur] at h3
  rw [h3]
  exact @closeAttackById_closes s.attacks a.id (s.halfMinuten * 60) a hnd hm rfl hao

/-- A concrete start-of-half-1 state with one open attack (half length 1,
so the cap is 60). -/
def c2WitnessState : AppState :=
  { DEFAULT_STATE with
      klokLoopt := true
      halfMinuten := 1
      attacks := [{ id := 0, index := 1, team := Team.thuis, vak := VakSide.aanvallend,
                    startSeconden := 0, endSeconden := none }]
      currentAttackId := some 0 }

/-- Witness for C2 at `c2WitnessState` with `k = 1` (61 ticks). -/
theorem claim_C2_clock_cap_witness :
    0 < 1 ∧
    (tick^[c2WitnessState.halfMinuten * 60 + 1] c2WitnessState).tijdSeconden =
      c2WitnessState.halfMinuten * 60 ∧
    (tick^[c2WitnessState.halfMinuten * 60 + 1] c2WitnessState).klokLoopt = false ∧
    ({ id := 0, index := 1, team := Team.thuis, vak := VakSide.aanvallend,
       startSeconden := 0, endSeconden := some (c2WitnessState.halfMinuten * 60) } : AttackMeta) ∈
      (tick^[c2WitnessState.halfMinuten * 60 + 1] c2WitnessState).attacks := by
  obtain ⟨h1, h2, h3⟩ := claim_C2_clock_cap c2WitnessState 1 (by decide) rfl rfl rfl
    (by decide) (by decide)
  refine ⟨by decide, h1, h2, ?_⟩
  exact h3 { id := 0, index := 1, team := Team.thuis, vak := VakSide.aanvallend,
             startSeconden := 0, endSeconden := none } (by decide) rfl

/-! ## Claim C3: score equals chronological log replay -/

/-- The home-goal recognizer of the `exportToExcel` score replay. -/
def isThuisGoalEvent (e : LogEvent) : Bool :=
  decide (e.soort = Soort.kans) && decide (e.vak = some VakSide.aanvallend) &&
    (decide (e.reden = LogReden.gescoord) || decide (e.reden = LogReden.doelpunt))

/-- The away-goal recognizer of the `exportToExcel` score replay. -/
def isUitGoalEvent (e : LogEvent) : Bool :=
  decide (e.soort = Soort.gemis) && decide (e.vak = some VakSide.verdedigend) &&
    (decide (e.reden = LogReden.doorgelaten) || decide (e.reden = LogReden.doelpunt))

/-- `exportToExcel` replays the log oldest-first (`slice().reverse()`),
incrementing a home counter on every recognized home goal. -/
def replayScoreThuis (log : List LogEvent) : Int :=
  log.reverse.foldl (fun acc e => if isThuisGoalEvent e then acc + 1 else acc) 0

/-- Away-side counterpart of `replayScoreThuis`. -/
def replayScoreUit (log : List LogEvent) : Int :=
  log.reverse.foldl (fun acc e => if isUitGoalEvent e then acc + 1 else acc) 0

theorem foldl_goal_count (p : LogEvent → Bool) (l : List LogEvent) (acc : Int) :
    l.foldl (fun acc e => if p e then acc + 1 else acc) acc = acc + l.countP p := by
  induction l generalizing acc with
  | nil => simp
  | cons e rest ih =>
    rw [List.foldl_cons, List.countP_cons, ih]
    by_cases he : p e = true
    · simp [he]
      omega
    · simp [he]

theorem replayScoreThuis_eq_countP (l : List LogEvent) :
    replayScoreThuis l = l.countP isThuisGoalEvent := by
  rw [replayScoreThuis, foldl_goal_count, List.countP_eq_length_filter,
    List.countP_eq_length_filter, List.filter_reverse, List.length_reverse]
  omega

theorem replayScoreUit_eq_countP (l : List LogEvent) :
    replayScoreUit l = l.countP isUitGoalEvent := by
  rw [replayScoreUit, foldl_goal_count, List.countP_eq_length_filter,
    List.countP_eq_length_filter, List.filter_reverse, List.length_reverse]
  omega

/-- The incremental score/log consistency invariant. -/
def ScoreLogOK (p : Sim) : Prop :=
  p.1.scoreThuis = (p.1.log.countP isThuisGoalEvent : Int) ∧
  p.1.scoreUit = (p.1.log.countP isUitGoalEvent : Int)

/-- The four manual score-adjustment buttons. -/
def isManualScore : Action → Bool
  | .scoreThuisMinus => true
  | .scoreThuisPlus => true
  | .scoreUitMinus => true
  | .scoreUitPlus => true
  | _ => false

/-- The event appended by `logEvent` and the resulting scores. -/
theorem logEvent_char (s : AppState) (n : Nat) (vak : VakSide) (soort : BasisSoort)
    (reden : LogReden) (spelerId : Option PId) (actie : Option LogActie)
    (resultaat : Option LogResultaat) :
    (logEvent s n vak soort reden spelerId actie resultaat).1.log =
      { id := n, tijdSeconden := s.tijdSeconden, vak := some vak, soort := soort.toSoort,
        reden := reden, spelerId := spelerId,
        team := some (if vak = VakSide.aanvallend then Team.thuis else Team.uit),
        actie := actie, resultaat := resultaat,
        resterendSeconden := some (resterendOf s.halfMinuten s.tijdSeconden),
        wedstrijdMinuut := some (wedstrijdMinuutOf s.tijdSeconden),
        attackId := (getCurrentAttackInfo s).1,
        attackIndex := (getCurrentAttackInfo s).2 } :: s.log ∧
    (logEvent s n vak soort reden spelerId actie resultaat).1.scoreThuis =
      (if isThuisGoalB soort vak reden then s.scoreThuis + 1 else s.scoreThuis) ∧
    (logEvent s n vak soort reden spelerId actie resultaat).1.scoreUit =
      (if isUitGoalB soort vak reden then s.scoreUit + 1 else s.scoreUit) := by
  refine ⟨?_, ?_, ?_⟩ <;> simp only [logEvent] <;> split_ifs <;> rfl

/-- The event predicates agree with the `logEvent` goal tests on the event
`logEvent` constructs. -/
theorem isThuisGoalEvent_logEvent (n t : Nat) (vak : VakSide) (soort : BasisSoort)
    (reden : LogReden) (spelerId : Option PId) (actie : Option LogActie)
    (resultaat : Option LogResultaat) (tm : Option Team) (rs mn : Option Nat)
    (aid aidx : Option Nat) :
    isThuisGoalEvent
      { id := n, tijdSeconden := t, vak := some vak, soort := soort.toSoort,
        reden := reden, spelerId := spelerId, team := tm, actie := actie,
        resultaat := resultaat, resterendSeconden := rs, wedstrijdMinuut := mn,
        attackId := aid, attackIndex := aidx } = isThuisGoalB soort vak reden := by
  cases soort <;> cases vak <;> rfl

theorem isUitGoalEvent_logEvent (n t : Nat) (vak : VakSide) (soort : BasisSoort)
    (reden : LogReden) (spelerId : Option PId) (actie : Option LogActie)
    (resultaat : Option LogResultaat) (tm : Option Team) (rs mn : Option Nat)
    (aid aidx : Option Nat) :
    isUitGoalEvent
      { id := n, tijdSeconden := t, vak := some vak, soort := soort.toSoort,
        reden := reden, spelerId := spelerId, team := tm, actie := actie,
        resultaat := resultaat, resterendSeconden := rs, wedstrijdMinuut := mn,
        attackId := aid, attackIndex := aidx } = isUitGoalB soort vak reden := by
  cases soort <;> cases vak <;> rfl

theorem logEvent_scoreLog {s : AppState} {n : Nat}
    (h1 : s.scoreThuis = (s.log.countP isThuisGoalEvent : Int))
    (h2 : s.scoreUit = (s.log.countP isUitGoalEvent : Int))
    (vak : VakSide) (soort : BasisSoort) (reden : LogReden) (spelerId : Option PId)
    (actie : Option LogActie) (resultaat : Option LogResultaat) :
    (logEvent s n vak soort reden spelerId actie resultaat).1.scoreThuis =
      ((logEvent s n vak soort reden spelerId actie resultaat).1.log.countP
        isThuisGoalEvent : Int) ∧
    (logEvent s n vak soort reden spelerId actie resultaat).1.scoreUit =
      ((logEvent s n vak soort reden spelerId actie resultaat).1.log.countP
        isUitGoalEvent : Int) := by
  obtain ⟨hl, hst, hsu⟩ := logEvent_char s n vak soort reden spelerId actie resultaat
  constructor
  · rw [hst, hl, List.countP_cons, isThuisGoalEvent_logEvent]
    by_cases hb : isThuisGoalB soort vak reden = true <;> simp [hb, h1]
  · rw [hsu, hl, List.countP_cons, isUitGoalEvent_logEvent]
    by_cases hb : isUitGoalB soort vak reden = true <;> simp [hb, h2]

theorem tick_fields (s : AppState) :
    (tick s).scoreThuis = s.scoreThuis ∧ (tick s).scoreUit = s.scoreUit ∧
    (tick s).log = s.log ∧ (tick s).halfMinuten = s.halfMinuten ∧
    (tick s).currentHalf = s.currentHalf ∧
    (tick s).possessionOwner = s.possessionOwner ∧
    (tick s).spelers = s.spelers ∧ (tick s).aanval = s.aanval ∧
    (tick s).verdediging = s.verdediging := by
  by_cases hk : s.klokLoopt = false
  · simp [tick, hk]
  · cases hcur : s.currentAttackId <;>
      by_cases hcap : s.currentHalf * (s.halfMinuten * 60) ≤
        min (s.tijdSeconden + 1) (s.currentHalf * (s.halfMinuten * 60)) <;>
      simp [tick, hk, hcur, hcap]

/-- One non-manual transition preserves score/log consistency. -/
theorem scoreLog_step (p : Sim) (a : Action) (h : ScoreLogOK p)
    (hman : isManualScore a = false) : ScoreLogOK (applyAction p a) := by
  obtain ⟨s, n⟩ := p
  obtain ⟨h1, h2⟩ := h
  replace h1 : s.scoreThuis = (s.log.countP isThuisGoalEvent : Int) := h1
  replace h2 : s.scoreUit = (s.log.countP isUitGoalEvent : Int) := h2
  cases a with
  | addSpeler naam g foto => exact ⟨h1, h2⟩
  | delSpeler pid => exact ⟨h1, h2⟩
  | importTeam spelers => exact ⟨h1, h2⟩
  | setVakPos vak pos spelerId logWissel =>
    constructor <;> simp only [applyAction, setVakPos] <;> split_ifs <;>
      simp_all [List.countP_cons, List.countP_append, isThuisGoalEvent, isUitGoalEvent]
  | wisselVakken => exact ⟨h1, h2⟩
  | toggleKlok aan => exact ⟨h1, h2⟩
  | resetKlok => exact ⟨h1, h2⟩
  | tick =>
    obtain ⟨hst, hsu, hl, _⟩ := tick_fields s
    constructor
    · show (tick s).scoreThuis = ((tick s).log.countP isThuisGoalEvent : Int)
      rw [hst, hl]
      exact h1
    · show (tick s).scoreUit = ((tick s).log.countP isUitGoalEvent : Int)
      rw [hsu, hl]
      exact h2
  | logEvent vak soort reden spelerId actie resultaat =>
    exact logEvent_scoreLog h1 h2 vak soort reden spelerId actie resultaat
  | handleVakActieLog vak actie uitkomst spelerId =>
    exact logEvent_scoreLog
      (s := { s with fieldEvents := markLastFieldEvent s.fieldEvents vak actie uitkomst })
      (n := n) h1 h2 vak _ _ spelerId (some actie) (some uitkomst)
  | logSteal spelerId =>
    refine ⟨?_, ?_⟩ <;>
      simp [applyAction, logSteal, startAttackForVak, List.countP_cons,
        isThuisGoalEvent, isUitGoalEvent, h1, h2]
  | logStealAgainstUs spelerId =>
    refine ⟨?_, ?_⟩ <;>
      simp [applyAction, logStealAgainstUs, startAttackForVak, List.countP_cons,
        isThuisGoalEvent, isUitGoalEvent, h1, h2]
  | logSchotOfRebound isSchot raak spelerId =>
    refine ⟨?_, ?_⟩ <;> cases isSchot <;>
      simp [applyAction, logSchotOfRebound, List.countP_cons,
        isThuisGoalEvent, isUitGoalEvent, h1, h2]
  | logBalbezit team reden spelerId =>
    refine ⟨?_, ?_⟩ <;>
      simp [applyAction, logBalbezit, startAttackForVak, List.countP_cons,
        isThuisGoalEvent, isUitGoalEvent, h1, h2]
  | vakClick vak =>
    simp only [applyAction, vakClick]
    split
    · exact ⟨h1, h2⟩
    · exact ⟨h1, h2⟩
  | addFieldEvent vak x y => exact ⟨h1, h2⟩
  | secondHalf =>
    constructor <;> simp only [applyAction, secondHalf] <;> split
    · exact h1
    · exact h1
    · exact h2
    · exact h2
  | eindeWedstrijd => exact ⟨h1, h2⟩
  | clearWedstrijd => exact ⟨rfl, rfl⟩
  | resetAlles => exact ⟨rfl, rfl⟩
  | scoreThuisMinus => cases hman
  | scoreThuisPlus => cases hman
  | scoreUitMinus => cases hman
  | scoreUitPlus => cases hman
  | halfMinutenMinus => exact ⟨h1, h2⟩
  | halfMinutenPlus => exact ⟨h1, h2⟩
  | setAutoVakWisselNa2 b => exact ⟨h1, h2⟩
  | setOpponentName x => exact ⟨h1, h2⟩
  | setAanvalLinks b => exact ⟨h1, h2⟩
  | setHomeAway t => exact ⟨h1, h2⟩

/-- Trace induction with a per-action side condition. -/
theorem runTrace_invQ (P : Sim → Prop) (Q : Action → Prop)
    (hstep : ∀ p a, P p → Q a → P (applyAction p a)) :
    ∀ acts : List Action, ∀ p : Sim, P p → (∀ a ∈ acts, Q a) → P (runTrace p acts) := by
  intro acts
  induction acts with
  | nil => intro p h _; exact h
  | cons a rest ih =>
    intro p h hq
    exact ih _ (hstep p a h (hq a (List.mem_cons_self a rest)))
      (fun b hb => hq b (List.mem_cons_of_mem a hb))

/-- **C3** (score/log consistency): replaying the log chronologically and
counting the recognized goal events reproduces `scoreThuis`/`scoreUit`
exactly, for every state reached without the manual score buttons. -/
theorem claim_C3_score_log_replay (acts : List Action)
    (hman : ∀ a ∈ acts, isManualScore a = false) :
    (runTrace initSim acts).1.scoreThuis = replayScoreThuis (runTrace initSim acts).1.log ∧
    (runTrace initSim acts).1.scoreUit = replayScoreUit (runTrace initSim acts).1.log := by
  have h := runTrace_invQ ScoreLogOK (fun a => isManualScore a = false)
    scoreLog_step acts initSim ⟨rfl, rfl⟩ hman
  rw [replayScoreThuis_eq_countP, replayScoreUit_eq_countP]
  exact h

/-- Witness for C3 after one scored chance from the attack zone. -/
theorem claim_C3_score_log_replay_witness :
    (runTrace initSim [Action.handleVakActieLog VakSide.aanvallend LogActie.schot
        LogResultaat.raak none]).1.scoreThuis =
      replayScoreThuis (runTrace initSim [Action.handleVakActieLog VakSide.aanvallend
        LogActie.schot LogResultaat.raak none]).1.log ∧
    (runTrace initSim [Action.handleVakActieLog VakSide.aanvallend LogActie.schot
        LogResultaat.raak none]).1.scoreUit =
      replayScoreUit (runTrace initSim [Action.handleVakActieLog VakSide.aanvallend
        LogActie.schot LogResultaat.raak none]).1.log :=
  claim_C3_score_log_replay _ (by decide)

/-! ## Claim C4: goal side effects -/

/-- **C4** (goal side effects): with the active zone being the attack zone,
logging a scored chance (`Kans`/`aanvallend`/`Gescoord`) increments
`scoreThuis` by exactly 1, flips the active zone to the defense zone,
appends a new open attack with team `uit` and zone `verdedigend` starting
at the current clock value, and closes the previously-open attack at that
same clock value. -/
theorem claim_C4_goal_side_effects (s : AppState) (n : Nat) (a : AttackMeta)
    (spelerId : Option PId) (actie : Option LogActie) (resultaat : Option LogResultaat)
    (hv : s.activeVak = VakSide.aanvallend)
    (hnd : (s.attacks.map AttackMeta.id).Nodup)
    (hm : a ∈ s.attacks) (hopen : a.endSeconden = none)
    (hcur : s.currentAttackId = some a.id) :
    (logEvent s n VakSide.aanvallend BasisSoort.kans LogReden.gescoord
        spelerId actie resultaat).1.scoreThuis = s.scoreThuis + 1 ∧
    (logEvent s n VakSide.aanvallend BasisSoort.kans LogReden.gescoord
        spelerId actie resultaat).1.activeVak = VakSide.verdedigend ∧
    (logEvent s n VakSide.aanvallend BasisSoort.kans LogReden.gescoord
        spelerId actie resultaat).1.attacks.getLast? =
      some { id := n + 1, index := s.attacks.length + 1, team := Team.uit,
             vak := VakSide.verdedigend, startSeconden := s.tijdSeconden,
             endSeconden := none } ∧
    { a with endSeconden := some s.tijdSeconden } ∈
      (logEvent s n VakSide.aanvallend BasisSoort.kans LogReden.gescoord
        spelerId actie resultaat).1.attacks := by
  have hl := closeAttackById_length s.attacks a.id s.tijdSeconden
  have hattacks : (logEvent s n VakSide.aanvallend BasisSoort.kans LogReden.gescoord
      spelerId actie resultaat).1.attacks =
      closeAttackById s.attacks a.id s.tijdSeconden ++
      [{ id := n + 1, index := s.attacks.length + 1, team := Team.uit,
         vak := VakSide.verdedigend, startSeconden := s.tijdSeconden,
         endSeconden := none }] := by
    by_cases hauto : s.autoVakWisselNa2 = true
    · by_cases hgoals : 2 ≤ s.goalsSinceLastSwitch + 1 <;>
        simp [logEvent, startAttackForVak, isThuisGoalB, isUitGoalB, hv, hcur,
          hauto, hgoals, hl]
    · simp [logEvent, startAttackForVak, isThuisGoalB, isUitGoalB, hv, hcur, hauto, hl]
  have hactive : (logEvent s n VakSide.aanvallend BasisSoort.kans LogReden.gescoord
      spelerId actie resultaat).1.activeVak = VakSide.verdedigend := by
    by_cases hauto : s.autoVakWisselNa2 = true
    · by_cases hgoals : 2 ≤ s.goalsSinceLastSwitch + 1 <;>
        simp [logEvent, startAttackForVak, isThuisGoalB, isUitGoalB, hv, hcur,
          hauto, hgoals]
    · simp [logEvent, startAttackForVak, isThuisGoalB, isUitGoalB, hv, hcur, hauto]
  refine ⟨?_, hactive, ?_, ?_⟩
  · simpa using (logEvent_char s n VakSide.aanvallend BasisSoort.kans LogReden.gescoord
      spelerId actie resultaat).2.1
  · rw [hattacks, List.getLast?_concat]
  · rw [hattacks]
    exact List.mem_append_left _
      (@closeAttackById_closes s.attacks a.id s.tijdSeconden a hnd hm rfl hopen)

/-- Witness for C4: a goal scored at the default state after one attack has
been opened by a zone click. -/
theorem claim_C4_goal_side_effects_witness :
    (logEvent { DEFAULT_STATE with
        attacks := [{ id := 0, index := 1, team := Team.thuis,
                      vak := VakSide.aanvallend, startSeconden := 0,
                      endSeconden := none }],
        currentAttackId := some 0 } 1 VakSide.aanvallend BasisSoort.kans
        LogReden.gescoord none none none).1.scoreThuis = 0 + 1 ∧
    (logEvent { DEFAULT_STATE with
        attacks := [{ id := 0, index := 1, team := Team.thuis,
                      vak := VakSide.aanvallend, startSeconden := 0,
                      endSeconden := none }],
        currentAttackId := some 0 } 1 VakSide.aanvallend BasisSoort.kans
        LogReden.gescoord none none none).1.activeVak = VakSide.verdedigend ∧
    (logEvent { DEFAULT_STATE with
        attacks := [{ id := 0, index := 1, team := Team.thuis,
                      vak := VakSide.aanvallend, startSeconden := 0,
                      endSeconden := none }],
        currentAttackId := some 0 } 1 VakSide.aanvallend BasisSoort.kans
        LogReden.gescoord none none none).1.attacks.getLast? =
      some { id := 2, index := 2, team := Team.uit, vak := VakSide.verdedigend,
             startSeconden := 0, endSeconden := none } ∧
    ({ id := 0, index := 1, team := Team.thuis, vak := VakSide.aanvallend,
       startSeconden := 0, endSeconden := some 0 } : AttackMeta) ∈
      (logEvent { DEFAULT_STATE with
        attacks := [{ id := 0, index := 1, team := Team.thuis,
                      vak := VakSide.aanvallend, startSeconden := 0,
                      endSeconden := none }],
        currentAttackId := some 0 } 1 VakSide.aanvallend BasisSoort.kans
        LogReden.gescoord none none none).1.attacks := by
  have h := claim_C4_goal_side_effects
    { DEFAULT_STATE with
        attacks := [{ id := 0, index := 1, team := Team.thuis,
                      vak := VakSide.aanvallend, startSeconden := 0,
                      endSeconden := none }],
        currentAttackId := some 0 } 1
    { id := 0, index := 1, team := Team.thuis, vak := VakSide.aanvallend,
      startSeconden := 0, endSeconden := none }
    none none none rfl (by decide) (by decide) rfl rfl
  exact h

/-! ## Claim C5: closed-attack interval ordering -/

/-- Transition sequence refuting the unrestricted C5: an attack opened at
`t = 1` stays open across `resetKlok` and is then closed at `t = 0`. -/
def c5Trace : List Action :=
  [Action.toggleKlok true, Action.tick, Action.vakClick VakSide.aanvallend,
   Action.resetKlok, Action.vakClick VakSide.verdedigend]

/-- Counterexample to C5 as stated: the state reached by `c5Trace`
(which includes a clock reset) contains a closed attack whose end time is
strictly below its start time. -/
theorem claim_C5_interval_ordering_cex :
    ((runTrace initSim c5Trace).1.attacks.any
      (fun a => match a.endSeconden with
        | some e => decide (e < a.startSeconden)
        | none => false)) = true := by decide

/-- Guard of the amended C5: reset the clock only with no open attack,
change the half length only while the clock is stopped, and start the
clock only at or below the current half cap. -/
def c5Guard (p : Sim) (a : Action) : Bool :=
  match a with
  | .resetKlok => decide (p.1.currentAttackId = none)
  | .halfMinutenMinus => decide (p.1.klokLoopt = false)
  | .halfMinutenPlus => decide (p.1.klokLoopt = false)
  | .toggleKlok true =>
    decide (p.1.tijdSeconden ≤ p.1.currentHalf * (p.1.halfMinuten * 60))
  | _ => true

/-- The interval-ordering invariant: closed attacks are well-ordered, open
attacks started no later than the clock, and a running clock is at or
below the current half cap. -/
structure OrderInv (p : Sim) : Prop where
  closedLE : ∀ a ∈ p.1.attacks, ∀ e, a.endSeconden = some e → a.startSeconden ≤ e
  openLE : ∀ a ∈ p.1.attacks, a.endSeconden = none → a.startSeconden ≤ p.1.tijdSeconden
  klokCap : p.1.klokLoopt = true →
    p.1.tijdSeconden ≤ p.1.currentHalf * (p.1.halfMinuten * 60)

theorem orderInvOfEq {p q : Sim} (h : OrderInv p) (ha : q.1.attacks = p.1.attacks)
    (ht : q.1.tijdSeconden = p.1.tijdSeconden) (hk : q.1.klokLoopt = p.1.klokLoopt)
    (hc : q.1.currentHalf = p.1.currentHalf) (hh : q.1.halfMinuten = p.1.halfMinuten) :
    OrderInv q where
  closedLE := fun a hm e he => h.closedLE a (ha ▸ hm) e he
  openLE := fun a hm ho => ht ▸ h.openLE a (ha ▸ hm) ho
  klokCap := fun hkl => by
    rw [ht, hc, hh]
    exact h.klokCap (hk ▸ hkl)

theorem orderInvOfEmpty {p : Sim} (ha : p.1.attacks = [])
    (hk : p.1.klokLoopt = false) : OrderInv p where
  closedLE := fun a hm => by rw [ha] at hm; cases hm
  openLE := fun a hm => by rw [ha] at hm; cases hm
  klokCap := fun hkl => by rw [hk] at hkl; cases hkl

/-- After `closeAttackById` at a time `now ≥` the clock bound of the open
attacks, interval ordering still holds. -/
theorem closeAttackById_orderInv {l : List AttackMeta} {cid now t : Nat}
    (h1 : ∀ a ∈ l, ∀ e, a.endSeconden = some e → a.startSeconden ≤ e)
    (h2 : ∀ a ∈ l, a.endSeconden = none → a.startSeconden ≤ t) (hnt : t ≤ now) :
    (∀ a ∈ closeAttackById l cid now, ∀ e, a.endSeconden = some e →
      a.startSeconden ≤ e) ∧
    (∀ a ∈ closeAttackById l cid now, a.endSeconden = none →
      a.startSeconden ≤ t) := by
  constructor
  · intro a' hm e he
    obtain ⟨a, ha, hid, hidx, htm, hvk, hst, hend⟩ := mem_closeAttackById hm
    rcases hend with heq | ⟨hao, hnow⟩
    · rw [hst]
      exact h1 a ha e (heq ▸ he)
    · rw [hnow] at he
      cases he
      rw [hst]
      exact le_trans (h2 a ha hao) hnt
  · intro a' hm ho
    obtain ⟨a, ha, hid, hidx, htm, hvk, hst, hend⟩ := mem_closeAttackById hm
    rcases hend with heq | ⟨hao, hnow⟩
    · rw [hst]
      exact h2 a ha (heq ▸ ho)
    · rw [hnow] at ho
      cases ho

/-- `startAttackForVak` preserves the interval-ordering invariant. -/
theorem startAttack_orderInv {s : AppState} {n : Nat} (h : OrderInv (s, n))
    (vak : VakSide) : OrderInv (startAttackForVak s n vak) := by
  have hattacks :
      (startAttackForVak s n vak).1.attacks =
        (match s.currentAttackId with
          | some cid => closeAttackById s.attacks cid s.tijdSeconden
          | none => s.attacks) ++
        [{ id := n,
           index := (match s.currentAttackId with
              | some cid => closeAttackById s.attacks cid s.tijdSeconden
              | none => s.attacks).length + 1,
           team := if vak = VakSide.aanvallend then Team.thuis else Team.uit,
           vak := vak, startSeconden := s.tijdSeconden, endSeconden := none }] := rfl
  have hAcl : ∀ a ∈ (match s.currentAttackId with
      | some cid => closeAttackById s.attacks cid s.tijdSeconden
      | none => s.attacks), (∀ e, a.endSeconden = some e → a.startSeconden ≤ e) ∧
        (a.endSeconden = none → a.startSeconden ≤ s.tijdSeconden) := by
    cases hcur : s.currentAttackId with
    | none =>
      intro a hm
      exact ⟨fun e he => h.closedLE a hm e he, fun ho => h.openLE a hm ho⟩
    | some cid =>
      intro a hm
      obtain ⟨hc1, hc2⟩ := closeAttackById_orderInv h.closedLE h.openLE
        (le_refl s.tijdSeconden)
      exact ⟨fun e he => hc1 a hm e he, fun ho => hc2 a hm ho⟩
  constructor
  · intro a hm e he
    rw [hattacks] at hm
    rcases List.mem_append.1 hm with h1 | h1
    · exact (hAcl a h1).1 e he
    · rcases List.mem_singleton.1 h1 with rfl
      cases he
  · intro a hm ho
    rw [hattacks] at hm
    rcases List.mem_append.1 hm with h1 | h1
    · exact (hAcl a h1).2 ho
    · rcases List.mem_singleton.1 h1 with rfl
      exact le_refl _
  · exact h.klokCap

/-- `tick` preserves the interval-ordering invariant. -/
theorem tick_orderInv {s : AppState} {n : Nat} (h : OrderInv (s, n)) :
    OrderInv (tick s, n) := by
  by_cases hk : s.klokLoopt = false
  · rw [tick_stopped hk]
    exact h
  · have hkt : s.klokLoopt = true := by
      cases hb : s.klokLoopt
      · exact absurd hb hk
      · rfl
    have hcl : ∀ a ∈ s.attacks, ∀ e, a.endSeconden = some e → a.startSeconden ≤ e :=
      h.closedLE
    have hol : ∀ a ∈ s.attacks, a.endSeconden = none →
        a.startSeconden ≤ s.tijdSeconden := h.openLE
    have hcap : s.tijdSeconden ≤ s.currentHalf * (s.halfMinuten * 60) := h.klokCap hkt
    have htle : s.tijdSeconden ≤ min (s.tijdSeconden + 1)
        (s.currentHalf * (s.halfMinuten * 60)) := by omega
    have hminle : min (s.tijdSeconden + 1) (s.currentHalf * (s.halfMinuten * 60)) ≤
        s.currentHalf * (s.halfMinuten * 60) := min_le_right _ _
    by_cases hc : s.currentHalf * (s.halfMinuten * 60) ≤
        min (s.tijdSeconden + 1) (s.currentHalf * (s.halfMinuten * 60))
    · cases hcur : s.currentAttackId with
      | none =>
        constructor
        · intro a hm e he
          have hm' : a ∈ s.attacks := by
            simpa [tick, hk, hc, hcur] using hm
          exact hcl a hm' e he
        · intro a hm ho
          have hm' : a ∈ s.attacks := by
            simpa [tick, hk, hc, hcur] using hm
          have := hol a hm' ho
          have ht : (tick s, n).1.tijdSeconden =
              min (s.tijdSeconden + 1) (s.currentHalf * (s.halfMinuten * 60)) := by
            simp [tick, hk, hc, hcur]
          omega
        · intro hkl
          have : (tick s, n).1.klokLoopt = false := by
            simp [tick, hk, hc, hcur]
          rw [this] at hkl
          cases hkl
      | some cid =>
        have hattacks : (tick s).attacks = closeAttackById s.attacks cid
            (min (s.tijdSeconden + 1) (s.currentHalf * (s.halfMinuten * 60))) := by
          simp [tick, hk, hc, hcur]
        obtain ⟨hc1, hc2⟩ := closeAttackById_orderInv hcl hol htle
        constructor
        · intro a hm e he
          rw [show (tick s, n).1.attacks = (tick s).attacks from rfl, hattacks] at hm
          exact hc1 a hm e he
        · intro a hm ho
          rw [show (tick s, n).1.attacks = (tick s).attacks from rfl, hattacks] at hm
          have := hc2 a hm ho
          have ht : (tick s, n).1.tijdSeconden =
              min (s.tijdSeconden + 1) (s.currentHalf * (s.halfMinuten * 60)) := by
            simp [tick, hk, hc, hcur]
          omega
        · intro hkl
          have : (tick s, n).1.klokLoopt = false := by
            simp [tick, hk, hc, hcur]
          rw [this] at hkl
          cases hkl
    · constructor
      · intro a hm e he
        have hm' : a ∈ s.attacks := by
          simpa [tick, hk, hc] using hm
        exact hcl a hm' e he
      · intro a hm ho
        have hm' : a ∈ s.attacks := by
          simpa [tick, hk, hc] using hm
        have := hol a hm' ho
        have ht : (tick s, n).1.tijdSeconden =
            min (s.tijdSeconden + 1) (s.currentHalf * (s.halfMinuten * 60)) := by
          simp [tick, hk, hc]
        omega
      · intro hkl
        have ht : (tick s, n).1.tijdSeconden =
            min (s.tijdSeconden + 1) (s.currentHalf * (s.halfMinuten * 60)) := by
          simp [tick, hk, hc]
        have hch : (tick s, n).1.currentHalf = s.currentHalf := (tick_fields s).2.2.2.2.1
        have hhm : (tick s, n).1.halfMinuten = s.halfMinuten := (tick_fields s).2.2.2.1
        rw [ht, hch, hhm]
        exact hminle

/-- `logEvent` preserves the interval-ordering invariant. -/
theorem logEvent_orderInv {s : AppState} {n : Nat} (h : OrderInv (s, n)) (vak : VakSide)
    (soort : BasisSoort) (reden : LogReden) (spelerId : Option PId)
    (actie : Option LogActie) (resultaat : Option LogResultaat) :
    OrderInv (logEvent s n vak soort reden spelerId actie resultaat) := by
  simp only [logEvent]
  split
  · apply startAttack_orderInv
    refine orderInvOfEq h ?_ ?_ ?_ ?_ ?_ <;> split_ifs <;> rfl
  · refine orderInvOfEq h ?_ ?_ ?_ ?_ ?_ <;> split_ifs <;> rfl

/-- One guarded transition preserves the interval-ordering invariant. -/
theorem orderInv_step (p : Sim) (a : Action) (hi : Inv p) (h : OrderInv p)
    (hg : c5Guard p a = true) : OrderInv (applyAction p a) := by
  obtain ⟨s, n⟩ := p
  have hcl : ∀ a ∈ s.attacks, ∀ e, a.endSeconden = some e → a.startSeconden ≤ e :=
    h.closedLE
  have hol : ∀ a ∈ s.attacks, a.endSeconden = none →
      a.startSeconden ≤ s.tijdSeconden := h.openLE
  cases a with
  | addSpeler naam g foto => exact orderInvOfEq h rfl rfl rfl rfl rfl
  | delSpeler pid => exact orderInvOfEq h rfl rfl rfl rfl rfl
  | importTeam spelers => exact orderInvOfEq h rfl rfl rfl rfl rfl
  | setVakPos vak pos spelerId logWissel =>
    refine orderInvOfEq h ?_ ?_ ?_ ?_ ?_ <;>
      simp only [applyAction, setVakPos] <;> split_ifs <;> rfl
  | wisselVakken => exact orderInvOfEq h rfl rfl rfl rfl rfl
  | toggleKlok aan =>
    cases aan with
    | false =>
      constructor
      · exact hcl
      · exact hol
      · intro hkl
        cases hkl
    | true =>
      constructor
      · exact hcl
      · exact hol
      · intro _
        simpa [c5Guard] using hg
  | resetKlok =>
    have hnone : s.currentAttackId = none := by simpa [c5Guard] using hg
    constructor
    · exact hcl
    · intro a hm ho
      have := hi.openCur a hm ho
      rw [hnone] at this
      cases this
    · intro hkl
      cases hkl
  | tick => exact tick_orderInv h
  | logEvent vak soort reden spelerId actie resultaat =>
    refine logEvent_orderInv ?_ _ _ _ _ _ _
    exact orderInvOfEq h rfl rfl rfl rfl rfl
  | handleVakActieLog vak actie uitkomst spelerId =>
    refine logEvent_orderInv ?_ _ _ _ _ _ _
    exact orderInvOfEq h rfl rfl rfl rfl rfl
  | logSteal spelerId =>
    refine startAttack_orderInv ?_ _
    exact orderInvOfEq h rfl rfl rfl rfl rfl
  | logStealAgainstUs spelerId =>
    refine startAttack_orderInv ?_ _
    exact orderInvOfEq h rfl rfl rfl rfl rfl
  | logSchotOfRebound isSchot raak spelerId =>
    exact orderInvOfEq h rfl rfl rfl rfl rfl
  | logBalbezit team reden spelerId =>
    refine startAttack_orderInv ?_ _
    exact orderInvOfEq h rfl rfl rfl rfl rfl
  | vakClick vak =>
    simp only [applyAction, vakClick]
    split
    · exact startAttack_orderInv h vak
    · exact h
  | addFieldEvent vak x y => exact orderInvOfEq h rfl rfl rfl rfl rfl
  | secondHalf =>
    by_cases h1 : s.currentHalf = 1
    · constructor
      · intro a hm e he
        exact hcl a (by simpa [applyAction, secondHalf, h1] using hm) e he
      · intro a hm ho
        have hm' : a ∈ s.attacks := by simpa [applyAction, secondHalf, h1] using hm
        have hle := hol a hm' ho
        have ht : (applyAction (s, n) Action.secondHalf).1.tijdSeconden =
            max s.tijdSeconden (s.halfMinuten * 60) := by
          simp [applyAction, secondHalf, h1]
        omega
      · intro hkl
        have : (applyAction (s, n) Action.secondHalf).1.klokLoopt = false := by
          simp [applyAction, secondHalf, h1]
        rw [this] at hkl
        cases hkl
    · refine orderInvOfEq h ?_ ?_ ?_ ?_ ?_ <;> simp [applyAction, secondHalf, h1]
  | eindeWedstrijd =>
    cases hcur : s.currentAttackId with
    | none =>
      constructor
      · intro a hm e he
        exact hcl a (by simpa [applyAction, eindeWedstrijd, hcur] using hm) e he
      · intro a hm ho
        exact hol a (by simpa [applyAction, eindeWedstrijd, hcur] using hm) ho
      · intro hkl
        rw [show (applyAction (s, n) Action.eindeWedstrijd).1.klokLoopt = false
          from rfl] at hkl
        cases hkl
    | some cid =>
      have hattacks : (applyAction (s, n) Action.eindeWedstrijd).1.attacks =
          closeAttackById s.attacks cid s.tijdSeconden := by
        simp only [applyAction, eindeWedstrijd, hcur]
      obtain ⟨hc1, hc2⟩ := closeAttackById_orderInv hcl hol (le_refl s.tijdSeconden)
      constructor
      · intro a hm e he
        rw [hattacks] at hm
        exact hc1 a hm e he
      · intro a hm ho
        rw [hattacks] at hm
        exact hc2 a hm ho
      · intro hkl
        cases hkl
  | clearWedstrijd => exact orderInvOfEmpty rfl rfl
  | resetAlles => exact orderInvOfEmpty rfl rfl
  | scoreThuisMinus => exact orderInvOfEq h rfl rfl rfl rfl rfl
  | scoreThuisPlus => exact orderInvOfEq h rfl rfl rfl rfl rfl
  | scoreUitMinus => exact orderInvOfEq h rfl rfl rfl rfl rfl
  | scoreUitPlus => exact orderInvOfEq h rfl rfl rfl rfl rfl
  | halfMinutenMinus =>
    have hkf : s.klokLoopt = false := by simpa [c5Guard] using hg
    constructor
    · exact hcl
    · exact hol
    · intro hkl
      rw [show (applyAction (s, n) Action.halfMinutenMinus).1.klokLoopt =
        s.klokLoopt from rfl, hkf] at hkl
      cases hkl
  | halfMinutenPlus =>
    have hkf : s.klokLoopt = false := by simpa [c5Guard] using hg
    constructor
    · exact hcl
    · exact hol
    · intro hkl
      rw [show (applyAction (s, n) Action.halfMinutenPlus).1.klokLoopt =
        s.klokLoopt from rfl, hkf] at hkl
      cases hkl
  | setAutoVakWisselNa2 b => exact orderInvOfEq h rfl rfl rfl rfl rfl
  | setOpponentName x => exact orderInvOfEq h rfl rfl rfl rfl rfl
  | setAanvalLinks b => exact orderInvOfEq h rfl rfl rfl rfl rfl
  | setHomeAway t => exact orderInvOfEq h rfl rfl rfl rfl rfl

/-- Trace induction with a state-dependent guard. -/
theorem runTrace_invG (P : Sim → Prop) (G : Sim → Action → Bool)
    (hstep : ∀ p a, P p → G p a = true → P (applyAction p a)) :
    ∀ acts : List Action, ∀ p : Sim, P p → traceOK G p acts = true → P (runTrace p acts) := by
  intro acts
  induction acts with
  | nil => intro p h _; exact h
  | cons a rest ih =>
    intro p h hok
    rw [traceOK, Bool.and_eq_true] at hok
    exact ih _ (hstep p a h hok.1) hok.2

/-- **C5** (closed-attack interval ordering, amended): for every state
reachable by a transition sequence in which the clock is reset only while
no attack is open, the half length is changed only while the clock is
stopped, and the clock is started only at or below the current half cap,
every closed attack satisfies `startSeconden ≤ endSeconden`; and in every
reachable state (no guard needed) the attack sequence indices are strictly
increasing. -/
theorem claim_C5_interval_ordering (acts : List Action)
    (hok : traceOK c5Guard initSim acts = true) :
    (∀ a ∈ (runTrace initSim acts).1.attacks, ∀ e, a.endSeconden = some e →
      a.startSeconden ≤ e) ∧
    ((runTrace initSim acts).1.attacks.map AttackMeta.index).Pairwise (· < ·) := by
  have hinv : Inv (runTrace initSim acts) := inv_reachable ⟨acts, rfl⟩
  have hord := runTrace_invG (fun p => Inv p ∧ OrderInv p) c5Guard
    (fun p a hp hg => ⟨inv_step p a hp.1, orderInv_step p a hp.1 hp.2 hg⟩)
    acts initSim ⟨inv_init, orderInvOfEmpty rfl rfl⟩ hok
  exact ⟨hord.2.closedLE, hinv.idxMono⟩

/-- Witness for the amended C5: a guarded trace that opens, closes and
reopens attacks across a running clock. -/
theorem claim_C5_interval_ordering_witness :
    (∀ a ∈ (runTrace initSim [Action.toggleKlok true, Action.tick,
        Action.vakClick VakSide.aanvallend, Action.tick,
        Action.vakClick VakSide.verdedigend, Action.eindeWedstrijd]).1.attacks,
      ∀ e, a.endSeconden = some e → a.startSeconden ≤ e) ∧
    ((runTrace initSim [Action.toggleKlok true, Action.tick,
        Action.vakClick VakSide.aanvallend, Action.tick,
        Action.vakClick VakSide.verdedigend, Action.eindeWedstrijd]).1.attacks.map
      AttackMeta.index).Pairwise (· < ·) :=
  claim_C5_interval_ordering _ (by decide)

/-! ## Claim C6: possession accounting bound -/

/-- Transition sequence refuting the unrestricted C6: run half 1 (length 1
minute) to its cap with home possession, then restart the clock at the cap
— the capped tick advances the possession counter but not the clock. -/
def c6Trace : List Action :=
  List.replicate 24 Action.halfMinutenMinus ++
  [Action.logBalbezit Team.thuis LogReden.balOnderschept none, Action.toggleKlok true] ++
  List.replicate 60 Action.tick ++ [Action.toggleKlok true, Action.tick]

/-- Counterexample to C6 as stated: after `c6Trace`,
`possessionThuisSeconden + possessionUitSeconden = 61 > 60 = tijdSeconden`. -/
theorem claim_C6_possession_bound_cex :
    ¬ ((runTrace initSim c6Trace).1.possessionThuisSeconden +
       (runTrace initSim c6Trace).1.possessionUitSeconden ≤
       (runTrace initSim c6Trace).1.tijdSeconden) := by decide

/-- Guard of the amended C6: start the clock only strictly below the
current half cap, and change the half length only while the clock is
stopped. -/
def c6Guard (p : Sim) (a : Action) : Bool :=
  match a with
  | .toggleKlok true =>
    decide (p.1.tijdSeconden < p.1.currentHalf * (p.1.halfMinuten * 60))
  | .halfMinutenMinus => decide (p.1.klokLoopt = false)
  | .halfMinutenPlus => decide (p.1.klokLoopt = false)
  | _ => true

/-- The possession-accounting invariant: the incremental counters never
exceed the elapsed clock, and a running clock is strictly below the cap. -/
structure PossInv (p : Sim) : Prop where
  possLE : p.1.possessionThuisSeconden + p.1.possessionUitSeconden ≤ p.1.tijdSeconden
  klokLt : p.1.klokLoopt = true →
    p.1.tijdSeconden < p.1.currentHalf * (p.1.halfMinuten * 60)

theorem possInvOfEq {p q : Sim} (h : PossInv p)
    (hpt : q.1.possessionThuisSeconden = p.1.possessionThuisSeconden)
    (hpu : q.1.possessionUitSeconden = p.1.possessionUitSeconden)
    (ht : q.1.tijdSeconden = p.1.tijdSeconden) (hk : q.1.klokLoopt = p.1.klokLoopt)
    (hc : q.1.currentHalf = p.1.currentHalf) (hh : q.1.halfMinuten = p.1.halfMinuten) :
    PossInv q where
  possLE := by rw [hpt, hpu, ht]; exact h.possLE
  klokLt := fun hkl => by
    rw [ht, hc, hh]
    exact h.klokLt (hk ▸ hkl)

/-- `logEvent` preserves the possession-accounting invariant. -/
theorem logEvent_possInv {s : AppState} {n : Nat} (h : PossInv (s, n)) (vak : VakSide)
    (soort : BasisSoort) (reden : LogReden) (spelerId : Option PId)
    (actie : Option LogActie) (resultaat : Option LogResultaat) :
    PossInv (logEvent s n vak soort reden spelerId actie resultaat) := by
  simp only [logEvent]
  split
  · refine possInvOfEq h ?_ ?_ ?_ ?_ ?_ ?_ <;> split_ifs <;> rfl
  · refine possInvOfEq h ?_ ?_ ?_ ?_ ?_ ?_ <;> split_ifs <;> rfl

/-- One guarded transition preserves the possession-accounting invariant. -/
theorem possInv_step (p : Sim) (a : Action) (h : PossInv p)
    (hg : c6Guard p a = true) : PossInv (applyAction p a) := by
  obtain ⟨s, n⟩ := p
  have hple : s.possessionThuisSeconden + s.possessionUitSeconden ≤ s.tijdSeconden :=
    h.possLE
  cases a with
  | addSpeler naam g foto => exact possInvOfEq h rfl rfl rfl rfl rfl rfl
  | delSpeler pid => exact possInvOfEq h rfl rfl rfl rfl rfl rfl
  | importTeam spelers => exact possInvOfEq h rfl rfl rfl rfl rfl rfl
  | setVakPos vak pos spelerId logWissel =>
    refine possInvOfEq h ?_ ?_ ?_ ?_ ?_ ?_ <;>
      simp only [applyAction, setVakPos] <;> split_ifs <;> rfl
  | wisselVakken => exact possInvOfEq h rfl rfl rfl rfl rfl rfl
  | toggleKlok aan =>
    cases aan with
    | false =>
      constructor
      · exact hple
      · intro hkl
        cases hkl
    | true =>
      constructor
      · exact hple
      · intro _
        simpa [c6Guard] using hg
  | resetKlok =>
    constructor
    · exact Nat.le_refl 0
    · intro hkl
      cases hkl
  | tick =>
    by_cases hk : s.klokLoopt = false
    · rw [show applyAction (s, n) Action.tick = (tick s, n) from rfl, tick_stopped hk]
      exact h
    · have hkt : s.klokLoopt = true := by
        cases hb : s.klokLoopt
        · exact absurd hb hk
        · rfl
      have hlt : s.tijdSeconden < s.currentHalf * (s.halfMinuten * 60) := h.klokLt hkt
      have hmin : min (s.tijdSeconden + 1) (s.currentHalf * (s.halfMinuten * 60)) =
          s.tijdSeconden + 1 := by omega
      have htt : (tick s).tijdSeconden = s.tijdSeconden + 1 := by
        by_cases hcap2 : s.currentHalf * (s.halfMinuten * 60) ≤ s.tijdSeconden + 1 <;>
          cases hcur : s.currentAttackId <;> simp [tick, hk, hmin, hcap2, hcur] <;> omega
      have hpt : (tick s).possessionThuisSeconden =
          (if s.possessionOwner = some Team.thuis then s.possessionThuisSeconden + 1
           else s.possessionThuisSeconden) := by
        by_cases hcap2 : s.currentHalf * (s.halfMinuten * 60) ≤ s.tijdSeconden + 1 <;>
          cases hcur : s.currentAttackId <;> simp [tick, hk, hmin, hcap2, hcur]
      have hpu : (tick s).possessionUitSeconden =
          (if s.possessionOwner = some Team.uit then s.possessionUitSeconden + 1
           else s.possessionUitSeconden) := by
        by_cases hcap2 : s.currentHalf * (s.halfMinuten * 60) ≤ s.tijdSeconden + 1 <;>
          cases hcur : s.currentAttackId <;> simp [tick, hk, hmin, hcap2, hcur]
      have hkl2 : (tick s).klokLoopt = true →
          s.tijdSeconden + 1 < s.currentHalf * (s.halfMinuten * 60) := by
        intro hkl
        by_cases hcap2 : s.currentHalf * (s.halfMinuten * 60) ≤ s.tijdSeconden + 1
        · exfalso
          have hfalse : (tick s).klokLoopt = false := by
            cases hcur : s.currentAttackId <;> simp [tick, hk, hmin, hcap2, hcur]
          rw [hfalse] at hkl
          cases hkl
        · omega
      constructor
      · show (tick s).possessionThuisSeconden + (tick s).possessionUitSeconden ≤
          (tick s).tijdSeconden
        rw [hpt, hpu, htt]
        rcases how : s.possessionOwner with _ | tm
        · simp [how]
          omega
        · cases tm <;> simp [how] <;> omega
      · intro hkl
        show (tick s).tijdSeconden < (tick s).currentHalf * ((tick s).halfMinuten * 60)
        rw [htt, (tick_fields s).2.2.2.2.1, (tick_fields s).2.2.2.1]
        exact hkl2 hkl
  | logEvent vak soort reden spelerId actie resultaat =>
    refine logEvent_possInv ?_ _ _ _ _ _ _
    exact possInvOfEq h rfl rfl rfl rfl rfl rfl
  | handleVakActieLog vak actie uitkomst spelerId =>
    refine logEvent_possInv ?_ _ _ _ _ _ _
    exact possInvOfEq h rfl rfl rfl rfl rfl rfl
  | logSteal spelerId => exact possInvOfEq h rfl rfl rfl rfl rfl rfl
  | logStealAgainstUs spelerId => exact possInvOfEq h rfl rfl rfl rfl rfl rfl
  | logSchotOfRebound isSchot raak spelerId => exact possInvOfEq h rfl rfl rfl rfl rfl rfl
  | logBalbezit team reden spelerId => exact possInvOfEq h rfl rfl rfl rfl rfl rfl
  | vakClick vak =>
    simp only [applyAction, vakClick]
    split
    · exact possInvOfEq h rfl rfl rfl rfl rfl rfl
    · exact h
  | addFieldEvent vak x y => exact possInvOfEq h rfl rfl rfl rfl rfl rfl
  | secondHalf =>
    by_cases h1 : s.currentHalf = 1
    · constructor
      · have ht : (applyAction (s, n) Action.secondHalf).1.tijdSeconden =
            max s.tijdSeconden (s.halfMinuten * 60) := by
          simp [applyAction, secondHalf, h1]
        have hp1 : (applyAction (s, n) Action.secondHalf).1.possessionThuisSeconden =
            s.possessionThuisSeconden := by
          simp [applyAction, secondHalf, h1]
        have hp2 : (applyAction (s, n) Action.secondHalf).1.possessionUitSeconden =
            s.possessionUitSeconden := by
          simp [applyAction, secondHalf, h1]
        rw [ht, hp1, hp2]
        omega
      · intro hkl
        have hkf : (applyAction (s, n) Action.secondHalf).1.klokLoopt = false := by
          simp [applyAction, secondHalf, h1]
        rw [hkf] at hkl
        cases hkl
    · refine possInvOfEq h ?_ ?_ ?_ ?_ ?_ ?_ <;> simp [applyAction, secondHalf, h1]
  | eindeWedstrijd =>
    constructor
    · exact hple
    · intro hkl
      rw [show (applyAction (s, n) Action.eindeWedstrijd).1.klokLoopt = false
        from rfl] at hkl
      cases hkl
  | clearWedstrijd =>
    constructor
    · exact Nat.le_refl 0
    · intro hkl
      cases hkl
  | resetAlles =>
    constructor
    · exact Nat.le_refl 0
    · intro hkl
      cases hkl
  | scoreThuisMinus => exact possInvOfEq h rfl rfl rfl rfl rfl rfl
  | scoreThuisPlus => exact possInvOfEq h rfl rfl rfl rfl rfl rfl
  | scoreUitMinus => exact possInvOfEq h rfl rfl rfl rfl rfl rfl
  | scoreUitPlus => exact possInvOfEq h rfl rfl rfl rfl rfl rfl
  | halfMinutenMinus =>
    have hkf : s.klokLoopt = false := by simpa [c6Guard] using hg
    constructor
    · exact hple
    · intro hkl
      rw [show (applyAction (s, n) Action.halfMinutenMinus).1.klokLoopt =
        s.klokLoopt from rfl, hkf] at hkl
      cases hkl
  | halfMinutenPlus =>
    have hkf : s.klokLoopt = false := by simpa [c6Guard] using hg
    constructor
    · exact hple
    · intro hkl
      rw [show (applyAction (s, n) Action.halfMinutenPlus).1.klokLoopt =
        s.klokLoopt from rfl, hkf] at hkl
      cases hkl
  | setAutoVakWisselNa2 b => exact possInvOfEq h rfl rfl rfl rfl rfl rfl
  | setOpponentName x => exact possInvOfEq h rfl rfl rfl rfl rfl rfl
  | setAanvalLinks b => exact possInvOfEq h rfl rfl rfl rfl rfl rfl
  | setHomeAway t => exact possInvOfEq h rfl rfl rfl rfl rfl rfl

/-- **C6** (possession accounting bound, amended): for every state
reachable by a transition sequence in which the clock is only started
strictly below the current half cap and the half length is only changed
while the clock is stopped,
`possessionThuisSeconden + possessionUitSeconden ≤ tijdSeconden`. -/
theorem claim_C6_possession_bound (acts : List Action)
    (hok : traceOK c6Guard initSim acts = true) :
    (runTrace initSim acts).1.possessionThuisSeconden +
      (runTrace initSim acts).1.possessionUitSeconden ≤
      (runTrace initSim acts).1.tijdSeconden := by
  refine (runTrace_invG PossInv c6Guard possInv_step acts initSim ?_ hok).possLE
  constructor
  · exact Nat.le_refl 0
  · intro hkl
    cases hkl

/-- Witness for the amended C6: possession assigned at `t = 0` and two
ticks on a running clock. -/
theorem claim_C6_possession_bound_witness :
    (runTrace initSim [Action.logBalbezit Team.thuis LogReden.balOnderschept none,
        Action.toggleKlok true, Action.tick, Action.tick]).1.possessionThuisSeconden +
      (runTrace initSim [Action.logBalbezit Team.thuis LogReden.balOnderschept none,
        Action.toggleKlok true, Action.tick, Action.tick]).1.possessionUitSeconden ≤
      (runTrace initSim [Action.logBalbezit Team.thuis LogReden.balOnderschept none,
        Action.toggleKlok true, Action.tick, Action.tick]).1.tijdSeconden :=
  claim_C6_possession_bound _ (by decide)

/-! ## Claim C7: substitution logging scenario -/

/-- **C7** (substitution logging): assigning slot 0 of the attack zone from
empty to a player with logging enabled, at `tijdSeconden = 65` and a
25-minute half, prepends exactly one "Wissel in" event with
`wedstrijdMinuut = 2`, `resterendSeconden = 1435`, `pos = 1` and team
`thuis`; the count of "Wissel uit" events is unchanged because the slot
was empty. -/
theorem claim_C7_substitution_logging (s : AppState) (n : Nat) (p : PId)
    (hslot : s.aanval.getD 0 none = none) (ht : s.tijdSeconden = 65)
    (hh : s.halfMinuten = 25) :
    (setVakPos s n VakSide.aanvallend 0 (some p) true).1.log =
      { id := n, tijdSeconden := 65, vak := some VakSide.aanvallend,
        soort := Soort.wissel, reden := LogReden.wisselIn, spelerId := some p,
        resterendSeconden := some 1435, wedstrijdMinuut := some 2, pos := some 1,
        team := some Team.thuis } :: s.log ∧
    (setVakPos s n VakSide.aanvallend 0 (some p) true).1.log.countP
        (fun e => decide (e.reden = LogReden.wisselUit)) =
      s.log.countP (fun e => decide (e.reden = LogReden.wisselUit)) := by
  have hlog : (setVakPos s n VakSide.aanvallend 0 (some p) true).1.log =
      { id := n, tijdSeconden := 65, vak := some VakSide.aanvallend,
        soort := Soort.wissel, reden := LogReden.wisselIn, spelerId := some p,
        resterendSeconden := some 1435, wedstrijdMinuut := some 2, pos := some 1,
        team := some Team.thuis } :: s.log := by
    have hslot2 : s.aanval[0]?.getD none = none := by
      simpa [List.getD] using hslot
    simp [setVakPos, hslot, hslot2, ht, hh, resterendOf, wedstrijdMinuutOf]
  refine ⟨hlog, ?_⟩
  rw [hlog, List.countP_cons]
  simp

/-- Witness for C7 at the default state advanced to 65 seconds. -/
theorem claim_C7_substitution_logging_witness :
    (setVakPos { DEFAULT_STATE with tijdSeconden := 65 } 3 VakSide.aanvallend 0
        (some (PId.gen 9)) true).1.log =
      [{ id := 3, tijdSeconden := 65, vak := some VakSide.aanvallend,
         soort := Soort.wissel, reden := LogReden.wisselIn,
         spelerId := some (PId.gen 9), resterendSeconden := some 1435,
         wedstrijdMinuut := some 2, pos := some 1, team := some Team.thuis }] ∧
    (setVakPos { DEFAULT_STATE with tijdSeconden := 65 } 3 VakSide.aanvallend 0
        (some (PId.gen 9)) true).1.log.countP
      (fun e => decide (e.reden = LogReden.wisselUit)) = 0 := by
  obtain ⟨h1, h2⟩ := claim_C7_substitution_logging
    { DEFAULT_STATE with tijdSeconden := 65 } 3 (PId.gen 9) rfl rfl rfl
  exact ⟨h1, h2⟩

/-! ## Claim C8: half-length setting while the clock runs -/

/-- **C8** (half-length setting): in the current version the `−`/`+`
buttons pass the clamped value to a raw `setHalfMinuten` that stores it
unconditionally — there is no `klokLoopt` guard, so pressing `−` while the
clock runs changes `halfMinuten` from 25 to 24 (the file's own header
comment, "Duur instelbaar met −/+ (1..60), disable tijdens lopen", and the
older in-file version disable the buttons while running).  The buttons do
clamp at the [1, 60] bounds. -/
theorem claim_C8_half_length_running :
    ({ DEFAULT_STATE with klokLoopt := true } : AppState).klokLoopt = true ∧
    (halfMinutenMinus { DEFAULT_STATE with klokLoopt := true }).halfMinuten = 24 ∧
    ¬ ((halfMinutenMinus { DEFAULT_STATE with klokLoopt := true }).halfMinuten =
       ({ DEFAULT_STATE with klokLoopt := true } : AppState).halfMinuten) ∧
    (halfMinutenMinus { DEFAULT_STATE with halfMinuten := 1 }).halfMinuten = 1 ∧
    (halfMinutenPlus { DEFAULT_STATE with halfMinuten := 60 }).halfMinuten = 60 := by
  decide

/-! ## Claim C10: score non-negativity -/

/-- Scores never go below zero. -/
def ScoreNonneg (p : Sim) : Prop := 0 ≤ p.1.scoreThuis ∧ 0 ≤ p.1.scoreUit

theorem logEvent_scoreNonneg {s : AppState} {n : Nat} (h1 : 0 ≤ s.scoreThuis)
    (h2 : 0 ≤ s.scoreUit) (vak : VakSide) (soort : BasisSoort) (reden : LogReden)
    (spelerId : Option PId) (actie : Option LogActie) (resultaat : Option LogResultaat) :
    0 ≤ (logEvent s n vak soort reden spelerId actie resultaat).1.scoreThuis ∧
    0 ≤ (logEvent s n vak soort reden spelerId actie resultaat).1.scoreUit := by
  obtain ⟨_, hst, hsu⟩ := logEvent_char s n vak soort reden spelerId actie resultaat
  constructor
  · rw [hst]
    split_ifs <;> omega
  · rw [hsu]
    split_ifs <;> omega

theorem scoreNonneg_step (p : Sim) (a : Action) (h : ScoreNonneg p) :
    ScoreNonneg (applyAction p a) := by
  obtain ⟨s, n⟩ := p
  obtain ⟨h1, h2⟩ := h
  replace h1 : 0 ≤ s.scoreThuis := h1
  replace h2 : 0 ≤ s.scoreUit := h2
  cases a with
  | addSpeler naam g foto => exact ⟨h1, h2⟩
  | delSpeler pid => exact ⟨h1, h2⟩
  | importTeam spelers => exact ⟨h1, h2⟩
  | setVakPos vak pos spelerId logWissel =>
    constructor <;> simp only [applyAction, setVakPos] <;> split_ifs <;> assumption
  | wisselVakken => exact ⟨h1, h2⟩
  | toggleKlok aan => exact ⟨h1, h2⟩
  | resetKlok => exact ⟨h1, h2⟩
  | tick =>
    obtain ⟨hst, hsu, _⟩ := tick_fields s
    exact ⟨by rw [show (applyAction (s, n) Action.tick).1.scoreThuis =
        (tick s).scoreThuis from rfl, hst]; exact h1,
      by rw [show (applyAction (s, n) Action.tick).1.scoreUit =
        (tick s).scoreUit from rfl, hsu]; exact h2⟩
  | logEvent vak soort reden spelerId actie resultaat =>
    exact logEvent_scoreNonneg h1 h2 vak soort reden spelerId actie resultaat
  | handleVakActieLog vak actie uitkomst spelerId =>
    exact logEvent_scoreNonneg
      (s := { s with fieldEvents := markLastFieldEvent s.fieldEvents vak actie uitkomst })
      (n := n) h1 h2 vak _ _ spelerId (some actie) (some uitkomst)
  | logSteal spelerId => exact ⟨h1, h2⟩
  | logStealAgainstUs spelerId => exact ⟨h1, h2⟩
  | logSchotOfRebound isSchot raak spelerId => exact ⟨h1, h2⟩
  | logBalbezit team reden spelerId => exact ⟨h1, h2⟩
  | vakClick vak =>
    simp only [applyAction, vakClick]
    split
    · exact ⟨h1, h2⟩
    · exact ⟨h1, h2⟩
  | addFieldEvent vak x y => exact ⟨h1, h2⟩
  | secondHalf =>
    constructor <;> simp only [applyAction, secondHalf] <;> split <;> assumption
  | eindeWedstrijd => exact ⟨h1, h2⟩
  | clearWedstrijd => exact ⟨le_refl 0, le_refl 0⟩
  | resetAlles => exact ⟨le_refl 0, le_refl 0⟩
  | scoreThuisMinus => exact ⟨le_max_left 0 _, h2⟩
  | scoreThuisPlus =>
    refine ⟨?_, h2⟩
    show (0 : Int) ≤ s.scoreThuis + 1
    omega
  | scoreUitMinus => exact ⟨h1, le_max_left 0 _⟩
  | scoreUitPlus =>
    refine ⟨h1, ?_⟩
    show (0 : Int) ≤ s.scoreUit + 1
    omega
  | halfMinutenMinus => exact ⟨h1, h2⟩
  | halfMinutenPlus => exact ⟨h1, h2⟩
  | setAutoVakWisselNa2 b => exact ⟨h1, h2⟩
  | setOpponentName x => exact ⟨h1, h2⟩
  | setAanvalLinks b => exact ⟨h1, h2⟩
  | setHomeAway t => exact ⟨h1, h2⟩

/-- **C10** (score non-negativity): in every reachable state both scores
are non-negative; the manual decrement buttons clamp at 0 (they compute
`max 0 (score - 1)`), and every other transition only increments a score
or resets it to 0. -/
theorem claim_C10_score_nonneg (p : Sim) (hreach : Reachable p) :
    0 ≤ p.1.scoreThuis ∧ 0 ≤ p.1.scoreUit ∧
    (applyAction p Action.scoreThuisMinus).1.scoreThuis = max 0 (p.1.scoreThuis - 1) ∧
    (applyAction p Action.scoreUitMinus).1.scoreUit = max 0 (p.1.scoreUit - 1) := by
  obtain ⟨acts, hrun⟩ := hreach
  have h := runTrace_invQ ScoreNonneg (fun _ => True)
    (fun p a h _ => scoreNonneg_step p a h) acts initSim ⟨le_refl 0, le_refl 0⟩
    (fun _ _ => trivial)
  rw [hrun] at h
  exact ⟨h.1, h.2, rfl, rfl⟩

/-- Witness for C10 at the reachable state where the home decrement button
was pressed at score 0. -/
theorem claim_C10_score_nonneg_witness :
    0 ≤ (runTrace initSim [Action.scoreThuisMinus]).1.scoreThuis ∧
    0 ≤ (runTrace initSim [Action.scoreThuisMinus]).1.scoreUit ∧
    (applyAction (runTrace initSim [Action.scoreThuisMinus])
        Action.scoreThuisMinus).1.scoreThuis =
      max 0 ((runTrace initSim [Action.scoreThuisMinus]).1.scoreThuis - 1) ∧
    (applyAction (runTrace initSim [Action.scoreThuisMinus])
        Action.scoreUitMinus).1.scoreUit =
      max 0 ((runTrace initSim [Action.scoreThuisMinus]).1.scoreUit - 1) :=
  claim_C10_score_nonneg _ ⟨_, rfl⟩

/-! ## Claim C9: share-link codec round trip

The share link is `encodeURIComponent(btoa(JSON.stringify(state)))`; the
decoder inverts the text layers inside a `try`/`catch` and hydrates the
parsed value with `sanitizeState`.  The base64/URI layers are injective
text transport, modelled as the identity on the JSON value; a string whose
transport decoding or `JSON.parse` throws is modelled as a `none` input.
`JSON.stringify` drops `undefined` record fields; a missing key and an
explicit `null` read back identically through `sanitizeState`, so absent
optional fields are encoded as explicit nulls. -/

/-- JSON values. -/
inductive Json where
  | null
  | bool (b : Bool)
  | num (n : Int)
  | str (s : String)
  | arr (xs : List Json)
  | obj (fields : List (String × Json))

/-- Property access `raw.k` on a parsed value: a missing key or a
non-object reads as `undefined`, which behaves like `null` in every
check `sanitizeState` performs. -/
def Json.getField : Json → String → Json
  | .obj fields, k =>
    match fields.find? (fun kv => decide (kv.1 = k)) with
    | some kv => kv.2
    | none => .null
  | _, _ => .null

/-- `num(v, d) = Number.isFinite(v) ? Number(v) : d` — every number in the
model is a finite integer. -/
def jnum (v : Json) (d : Int) : Int :=
  match v with
  | .num x => x
  | _ => d

/-- `num(v, d)` read back into a `Nat` field (clock seconds, counters);
negative numbers, which no encoded state contains, clamp to 0. -/
def jnat (v : Json) (d : Nat) : Nat :=
  match v with
  | .num x => x.toNat
  | _ => d

/-- `bool(v, d) = typeof v === "boolean" ? v : d`. -/
def jbool (v : Json) (d : Bool) : Bool :=
  match v with
  | .bool b => b
  | _ => d

/-- `typeof v === "string" ? v : d`. -/
def jstr (v : Json) (d : String) : String :=
  match v with
  | .str x => x
  | _ => d

def optJ (f : α → Json) : Option α → Json
  | none => Json.null
  | some x => f x

def natJ (n : Nat) : Json := Json.num (Int.ofNat n)

def pidToJson : PId → Json
  | .gen n => Json.num (Int.ofNat n)
  | .tegenstander => Json.str "__tegenstander__"

def pidFromJson : Json → Option PId
  | .num x => some (PId.gen x.toNat)
  | .str "__tegenstander__" => some PId.tegenstander
  | _ => none

def teamToJson : Team → Json
  | .thuis => Json.str "thuis"
  | .uit => Json.str "uit"

def teamFromJson (v : Json) (d : Team) : Team :=
  match v with
  | .str "thuis" => Team.thuis
  | .str "uit" => Team.uit
  | _ => d

def vakToJson : VakSide → Json
  | .aanvallend => Json.str "aanvallend"
  | .verdedigend => Json.str "verdedigend"

def vakFromJson : Json → Option VakSide
  | .str "aanvallend" => some VakSide.aanvallend
  | .str "verdedigend" => some VakSide.verdedigend
  | _ => none

def geslachtToJson : Geslacht → Json
  | .dame => Json.str "Dame"
  | .heer => Json.str "Heer"

def geslachtFromJson (v : Json) : Geslacht :=
  match v with
  | .str "Heer" => Geslacht.heer
  | _ => Geslacht.dame

def soortToJson : Soort → Json
  | .gemis => Json.str "Gemis"
  | .kans => Json.str "Kans"
  | .wissel => Json.str "Wissel"
  | .balbezit => Json.str "Balbezit"
  | .schot => Json.str "Schot"
  | .rebound => Json.str "Rebound"

def soortFromJson (v : Json) : Soort :=
  match v with
  | .str "Kans" => Soort.kans
  | .str "Wissel" => Soort.wissel
  | .str "Balbezit" => Soort.balbezit
  | .str "Schot" => Soort.schot
  | .str "Rebound" => Soort.rebound
  | _ => Soort.gemis

def actieToJson : LogActie → Json
  | .schot => Json.str "Schot"
  | .doorloop => Json.str "Doorloop"
  | .vrijebal => Json.str "Vrijebal"
  | .strafworp => Json.str "Strafworp"

def actieFromJson : Json → Option LogActie
  | .str "Schot" => some LogActie.schot
  | .str "Doorloop" => some LogActie.doorloop
  | .str "Vrijebal" => some LogActie.vrijebal
  | .str "Strafworp" => some LogActie.strafworp
  | _ => none

def resultaatToJson : LogResultaat → Json
  | .raak => Json.str "Raak"
  | .mis => Json.str "Mis"
  | .korf => Json.str "Korf"
  | .verdedigd => Json.str "Verdedigd"

def resultaatFromJson : Json → Option LogResultaat
  | .str "Raak" => some LogResultaat.raak
  | .str "Mis" => some LogResultaat.mis
  | .str "Korf" => some LogResultaat.korf
  | .str "Verdedigd" => some LogResultaat.verdedigd
  | _ => none

def shotTypeToJson : ShotType → Json
  | .schot => Json.str "Schot"
  | .rebound => Json.str "Rebound"

def shotTypeFromJson : Json → Option ShotType
  | .str "Schot" => some ShotType.schot
  | .str "Rebound" => some ShotType.rebound
  | _ => none

def redenToJson : LogReden → Json
  | .balOnderschept => Json.str "Bal onderschept"
  | .balUit => Json.str "Bal uit"
  | .overtreding => Json.str "overtreding"
  | .doorgelaten => Json.str "Doorgelaten"
  | .gescoord => Json.str "Gescoord"
  | .wisselIn => Json.str "Wissel in"
  | .wisselUit => Json.str "Wissel uit"
  | .passOnderschept => Json.str "Pass Onderschept"
  | .vrijebal => Json.str "Vrijebal"
  | .vrijeBalTegen => Json.str "Vrije bal tegen"
  | .strafworp => Json.str "Strafworp"
  | .strafworpTegen => Json.str "Strafworp tegen"
  | .schotAfgevangen => Json.str "Schot afgevangen"
  | .gemistSchot => Json.str "Gemist Schot"
  | .rebound => Json.str "Rebound"
  | .korf => Json.str "Korf"
  | .doelpunt => Json.str "Doelpunt"
  | .verdedigd => Json.str "Verdedigd"

def redenFromJson (v : Json) : LogReden :=
  match v with
  | .str "Bal uit" => LogReden.balUit
  | .str "overtreding" => LogReden.overtreding
  | .str "Doorgelaten" => LogReden.doorgelaten
  | .str "Gescoord" => LogReden.gescoord
  | .str "Wissel in" => LogReden.wisselIn
  | .str "Wissel uit" => LogReden.wisselUit
  | .str "Pass Onderschept" => LogReden.passOnderschept
  | .str "Vrijebal" => LogReden.vrijebal
  | .str "Vrije bal tegen" => LogReden.vrijeBalTegen
  | .str "Strafworp" => LogReden.strafworp
  | .str "Strafworp tegen" => LogReden.strafworpTegen
  | .str "Schot afgevangen" => LogReden.schotAfgevangen
  | .str "Gemist Schot" => LogReden.gemistSchot
  | .str "Rebound" => LogReden.rebound
  | .str "Korf" => LogReden.korf
  | .str "Doelpunt" => LogReden.doelpunt
  | .str "Verdedigd" => LogReden.verdedigd
  | _ => LogReden.balOnderschept

def optNatFromJson : Json → Option Nat
  | .num x => some x.toNat
  | _ => none

/-- `v === "thuis" || v === "uit" ? v : null` — the check used for
`possessionOwner`, `LogEvent.team` and `homeAway`-like fields. -/
def teamOptFromJson : Json → Option Team
  | .str "thuis" => some Team.thuis
  | .str "uit" => some Team.uit
  | _ => none

def optStrFromJson : Json → Option String
  | .str x => some x
  | _ => none

def playerToJson (p : Player) : Json :=
  Json.obj [("id", pidToJson p.id), ("naam", Json.str p.naam),
    ("geslacht", geslachtToJson p.geslacht), ("foto", optJ Json.str p.foto)]

def playerFromJson (v : Json) : Player :=
  { id := (pidFromJson (v.getField "id")).getD (PId.gen 0)
    naam := jstr (v.getField "naam") ""
    geslacht := geslachtFromJson (v.getField "geslacht")
    foto := optStrFromJson (v.getField "foto") }

def attackToJson (a : AttackMeta) : Json :=
  Json.obj [("id", natJ a.id), ("index", natJ a.index), ("team", teamToJson a.team),
    ("vak", vakToJson a.vak), ("startSeconden", natJ a.startSeconden),
    ("endSeconden", optJ natJ a.endSeconden)]

def attackFromJson (v : Json) : AttackMeta :=
  { id := jnat (v.getField "id") 0
    index := jnat (v.getField "index") 0
    team := teamFromJson (v.getField "team") Team.thuis
    vak := (vakFromJson (v.getField "vak")).getD VakSide.aanvallend
    startSeconden := jnat (v.getField "startSeconden") 0
    endSeconden := optNatFromJson (v.getField "endSeconden") }

def eventToJson (e : LogEvent) : Json :=
  Json.obj [("id", natJ e.id), ("tijdSeconden", natJ e.tijdSeconden),
    ("vak", optJ vakToJson e.vak), ("soort", soortToJson e.soort),
    ("actie", optJ actieToJson e.actie), ("reden", redenToJson e.reden),
    ("spelerId", optJ pidToJson e.spelerId),
    ("resterendSeconden", optJ natJ e.resterendSeconden),
    ("wedstrijdMinuut", optJ natJ e.wedstrijdMinuut),
    ("pos", optJ natJ e.pos), ("team", optJ teamToJson e.team),
    ("possThuis", optJ natJ e.possThuis), ("possUit", optJ natJ e.possUit),
    ("type", optJ shotTypeToJson e.type),
    ("resultaat", optJ resultaatToJson e.resultaat),
    ("attackId", optJ natJ e.attackId), ("attackIndex", optJ natJ e.attackIndex)]

def eventFromJson (v : Json) : LogEvent :=
  { id := jnat (v.getField "id") 0
    tijdSeconden := jnat (v.getField "tijdSeconden") 0
    vak := vakFromJson (v.getField "vak")
    soort := soortFromJson (v.getField "soort")
    actie := actieFromJson (v.getField "actie")
    reden := redenFromJson (v.getField "reden")
    spelerId := pidFromJson (v.getField "spelerId")
    resterendSeconden := optNatFromJson (v.getField "resterendSeconden")
    wedstrijdMinuut := optNatFromJson (v.getField "wedstrijdMinuut")
    pos := optNatFromJson (v.getField "pos")
    team := teamOptFromJson (v.getField "team")
    possThuis := optNatFromJson (v.getField "possThuis")
    possUit := optNatFromJson (v.getField "possUit")
    type := shotTypeFromJson (v.getField "type")
    resultaat := resultaatFromJson (v.getField "resultaat")
    attackId := optNatFromJson (v.getField "attackId")
    attackIndex := optNatFromJson (v.getField "attackIndex") }

def fieldEventToJson (fe : FieldEvent) : Json :=
  Json.obj [("id", natJ fe.id), ("vak", vakToJson fe.vak), ("x", Json.num fe.x),
    ("y", Json.num fe.y), ("tijdSeconden", natJ fe.tijdSeconden),
    ("attackId", optJ natJ fe.attackId), ("actie", optJ actieToJson fe.actie),
    ("resultaat", optJ resultaatToJson fe.resultaat)]

def fieldEventFromJson (v : Json) : FieldEvent :=
  { id := jnat (v.getField "id") 0
    vak := (vakFromJson (v.getField "vak")).getD VakSide.aanvallend
    x := jnum (v.getField "x") 0
    y := jnum (v.getField "y") 0
    tijdSeconden := jnat (v.getField "tijdSeconden") 0
    attackId := optNatFromJson (v.getField "attackId")
    actie := actieFromJson (v.getField "actie")
    resultaat := resultaatFromJson (v.getField "resultaat") }

/-- `JSON.stringify(state)` as a JSON value. -/
def stateToJson (s : AppState) : Json :=
  Json.obj [
    ("spelers", Json.arr (s.spelers.map playerToJson)),
    ("aanval", Json.arr (s.aanval.map (optJ pidToJson))),
    ("verdediging", Json.arr (s.verdediging.map (optJ pidToJson))),
    ("scoreThuis", Json.num s.scoreThuis),
    ("scoreUit", Json.num s.scoreUit),
    ("tijdSeconden", natJ s.tijdSeconden),
    ("klokLoopt", Json.bool s.klokLoopt),
    ("halfMinuten", natJ s.halfMinuten),
    ("log", Json.arr (s.log.map eventToJson)),
    ("possessionOwner", optJ teamToJson s.possessionOwner),
    ("possessionThuisSeconden", natJ s.possessionThuisSeconden),
    ("possessionUitSeconden", natJ s.possessionUitSeconden),
    ("autoVakWisselNa2", Json.bool s.autoVakWisselNa2),
    ("goalsSinceLastSwitch", natJ s.goalsSinceLastSwitch),
    ("aanvalLinks", Json.bool s.aanvalLinks),
    ("currentHalf", natJ s.currentHalf),
    ("activeVak", vakToJson s.activeVak),
    ("attacks", Json.arr (s.attacks.map attackToJson)),
    ("currentAttackId", optJ natJ s.currentAttackId),
    ("fieldEvents", Json.arr (s.fieldEvents.map fieldEventToJson)),
    ("opponentName", Json.str s.opponentName),
    ("homeAway", teamToJson s.homeAway),
    ("matchEnded", Json.bool s.matchEnded)]

/-- `a[i] ?? null` over the first four entries of a parsed lineup array. -/
def toArr4 (v : Json) : List (Option PId) :=
  match v with
  | .arr a => [pidFromJson (a.getD 0 Json.null), pidFromJson (a.getD 1 Json.null),
               pidFromJson (a.getD 2 Json.null), pidFromJson (a.getD 3 Json.null)]
  | _ => [none, none, none, none]

/-- `sanitizeState(raw)` (App.tsx lines 287–356): best-effort hydration of
an arbitrary parsed value, defaulting every field independently.  The
blind `as Player[]`/`as LogEvent[]`/`as AttackMeta[]`/`as FieldEvent[]`
casts are modelled by structural readers that rebuild each record from its
JSON fields; ill-shaped entries fall back to defaults (never exercised by
the round-trip theorem).  The check `typeof === "string"` on
`currentAttackId` becomes a number check because uid strings are modelled
as numbers. -/
def sanitizeState (raw : Json) : AppState :=
  { spelers :=
      match raw.getField "spelers" with
      | .arr xs => xs.map playerFromJson
      | _ => []
    aanval := toArr4 (raw.getField "aanval")
    verdediging := toArr4 (raw.getField "verdediging")
    scoreThuis := jnum (raw.getField "scoreThuis") DEFAULT_STATE.scoreThuis
    scoreUit := jnum (raw.getField "scoreUit") DEFAULT_STATE.scoreUit
    tijdSeconden := jnat (raw.getField "tijdSeconden") DEFAULT_STATE.tijdSeconden
    klokLoopt := jbool (raw.getField "klokLoopt") DEFAULT_STATE.klokLoopt
    halfMinuten := jnat (raw.getField "halfMinuten") DEFAULT_STATE.halfMinuten
    log :=
      match raw.getField "log" with
      | .arr xs => xs.map eventFromJson
      | _ => []
    possessionOwner := teamOptFromJson (raw.getField "possessionOwner")
    possessionThuisSeconden :=
      jnat (raw.getField "possessionThuisSeconden") DEFAULT_STATE.possessionThuisSeconden
    possessionUitSeconden :=
      jnat (raw.getField "possessionUitSeconden") DEFAULT_STATE.possessionUitSeconden
    autoVakWisselNa2 := jbool (raw.getField "autoVakWisselNa2") DEFAULT_STATE.autoVakWisselNa2
    goalsSinceLastSwitch :=
      jnat (raw.getField "goalsSinceLastSwitch") DEFAULT_STATE.goalsSinceLastSwitch
    aanvalLinks := jbool (raw.getField "aanvalLinks") DEFAULT_STATE.aanvalLinks
    currentHalf :=
      match raw.getField "currentHalf" with
      | .num 2 => 2
      | _ => 1
    activeVak :=
      match raw.getField "activeVak" with
      | .str "verdedigend" => VakSide.verdedigend
      | _ => VakSide.aanvallend
    attacks :=
      match raw.getField "attacks" with
      | .arr xs => xs.map attackFromJson
      | _ => DEFAULT_STATE.attacks
    currentAttackId := optNatFromJson (raw.getField "currentAttackId")
    fieldEvents :=
      match raw.getField "fieldEvents" with
      | .arr xs => xs.map fieldEventFromJson
      | _ => DEFAULT_STATE.fieldEvents
    opponentName := jstr (raw.getField "opponentName") ""
    homeAway :=
      match raw.getField "homeAway" with
      | .str "uit" => Team.uit
      | .str "thuis" => Team.thuis
      | _ => DEFAULT_STATE.homeAway
    matchEnded := jbool (raw.getField "matchEnded") DEFAULT_STATE.matchEnded }

/-- `encodeStateForShare(s)` up to the injective base64/URI text layers. -/
def encodeStateForShare (s : AppState) : Json := stateToJson s

/-- `decodeStateFromShare(encoded)`: `none` is a string whose transport
decoding or `JSON.parse` throws (the `catch` returns `null`); otherwise the
parsed value is hydrated with `sanitizeState`.  Total by construction. -/
def decodeStateFromShare : Option Json → Option AppState
  | none => none
  | some raw => some (sanitizeState raw)

/-! Round-trip lemmas for the codec. -/

theorem pidFromJson_opt (v : Option PId) : pidFromJson (optJ pidToJson v) = v := by
  cases v with
  | none => rfl
  | some x => cases x <;> rfl

theorem vakFromJson_opt (v : Option VakSide) : vakFromJson (optJ vakToJson v) = v := by
  cases v with
  | none => rfl
  | some x => cases x <;> rfl

theorem soortFromJson_toJson (x : Soort) : soortFromJson (soortToJson x) = x := by
  cases x <;> rfl

theorem actieFromJson_opt (v : Option LogActie) :
    actieFromJson (optJ actieToJson v) = v := by
  cases v with
  | none => rfl
  | some x => cases x <;> rfl

theorem redenFromJson_toJson (x : LogReden) : redenFromJson (redenToJson x) = x := by
  cases x <;> rfl

theorem optNatFromJson_opt (v : Option Nat) : optNatFromJson (optJ natJ v) = v := by
  cases v with
  | none => rfl
  | some x => rfl

theorem shotTypeFromJson_opt (v : Option ShotType) :
    shotTypeFromJson (optJ shotTypeToJson v) = v := by
  cases v with
  | none => rfl
  | some x => cases x <;> rfl

theorem resultaatFromJson_opt (v : Option LogResultaat) :
    resultaatFromJson (optJ resultaatToJson v) = v := by
  cases v with
  | none => rfl
  | some x => cases x <;> rfl

theorem teamOptFromJson_opt (v : Option Team) : teamOptFromJson (optJ teamToJson v) = v := by
  cases v with
  | none => rfl
  | some x => cases x <;> rfl

theorem teamFromJson_toJson (x : Team) (d : Team) : teamFromJson (teamToJson x) d = x := by
  cases x <;> rfl

theorem vakFromJson_toJson_getD (x : VakSide) (d : VakSide) :
    (vakFromJson (vakToJson x)).getD d = x := by
  cases x <;> rfl

/-- A serialized log event reads back unchanged. -/
theorem eventFromJson_toJson (e : LogEvent) : eventFromJson (eventToJson e) = e := by
  obtain ⟨i, t, vk, so, ac, re, sp, rs, wm, ps, tm, p1, p2, ty, ru, ai, ax⟩ := e
  show (⟨i, t, vakFromJson (optJ vakToJson vk), soortFromJson (soortToJson so),
      actieFromJson (optJ actieToJson ac), redenFromJson (redenToJson re),
      pidFromJson (optJ pidToJson sp), optNatFromJson (optJ natJ rs),
      optNatFromJson (optJ natJ wm), optNatFromJson (optJ natJ ps),
      teamOptFromJson (optJ teamToJson tm), optNatFromJson (optJ natJ p1),
      optNatFromJson (optJ natJ p2), shotTypeFromJson (optJ shotTypeToJson ty),
      resultaatFromJson (optJ resultaatToJson ru), optNatFromJson (optJ natJ ai),
      optNatFromJson (optJ natJ ax)⟩ : LogEvent) = _
  simp only [vakFromJson_opt, soortFromJson_toJson, actieFromJson_opt,
    redenFromJson_toJson, pidFromJson_opt, optNatFromJson_opt, teamOptFromJson_opt,
    shotTypeFromJson_opt, resultaatFromJson_opt]

/-- A serialized attack reads back unchanged. -/
theorem attackFromJson_toJson (a : AttackMeta) : attackFromJson (attackToJson a) = a := by
  obtain ⟨i, ix, tm, vk, st, en⟩ := a
  show (⟨i, ix, teamFromJson (teamToJson tm) Team.thuis,
      (vakFromJson (vakToJson vk)).getD VakSide.aanvallend, st,
      optNatFromJson (optJ natJ en)⟩ : AttackMeta) = _
  simp only [teamFromJson_toJson, vakFromJson_toJson_getD, optNatFromJson_opt]

theorem map_eventFromJson_toJson (l : List LogEvent) :
    (l.map eventToJson).map eventFromJson = l := by
  induction l with
  | nil => rfl
  | cons e rest ih => simp [eventFromJson_toJson e, ih]

theorem map_attackFromJson_toJson (l : List AttackMeta) :
    (l.map attackToJson).map attackFromJson = l := by
  induction l with
  | nil => rfl
  | cons a rest ih => simp [attackFromJson_toJson a, ih]

/-- **C9** (share-link round trip): decoding an encoded state yields a
state with the same scores, a log of the same length with the same event
ids in the same order, and an identical attack list; a malformed input
(one whose transport decoding or parse throws) decodes to `null` rather
than raising. -/
theorem claim_C9_share_roundtrip :
    (∀ s : AppState, ∃ s' : AppState,
      decodeStateFromShare (some (encodeStateForShare s)) = some s' ∧
      s'.scoreThuis = s.scoreThuis ∧ s'.scoreUit = s.scoreUit ∧
      s'.log.length = s.log.length ∧
      s'.log.map LogEvent.id = s.log.map LogEvent.id ∧
      s'.attacks = s.attacks) ∧
    decodeStateFromShare none = none := by
  constructor
  · intro s
    refine ⟨sanitizeState (encodeStateForShare s), rfl, ?_, ?_, ?_, ?_, ?_⟩
    · rfl
    · rfl
    · show ((s.log.map eventToJson).map eventFromJson).length = s.log.length
      rw [map_eventFromJson_toJson]
    · show ((s.log.map eventToJson).map eventFromJson).map LogEvent.id =
        s.log.map LogEvent.id
      rw [map_eventFromJson_toJson]
    · show (s.attacks.map attackToJson).map attackFromJson = s.attacks
      rw [map_attackFromJson_toJson]
  · rfl

end KorfbalCoach
